import Mathlib

/-!
Verification of the GuestBot request-security pipeline.

Shallow embedding of the security-relevant modules of the repository:
`rate-limiter.js`, `sensitive-data-handler.js`, `context-detector.js`,
`input-sanitizer.js`, `output-filter.js`, `response-validator.js` and the
SSRF-safe fetcher from the functions entry point.  JS `Date.now()` values are
modelled as `Int` (milliseconds), the mutable in-memory `Map` stores as
functions `String → Option _` threaded explicitly through each call, and each
Firestore read as an `Except` value so that storage failures can be injected.
-/

namespace GuestBot

/-! ### In-memory fixed-window rate limiter (`rate-limiter.js`) -/

/-- One record of the in-memory rate-limit store (`rateLimitStore` in
`rate-limiter.js`): `{ count, windowStart }`. -/
structure CounterRecord where
  count : Nat
  windowStart : Int
deriving Repr, DecidableEq

/-- The in-memory store: a map from `"endpoint:identifier"` keys to records. -/
def RateStore : Type := String → Option CounterRecord

/-- `Map.set` on the store. -/
def RateStore.set (s : RateStore) (k : String) (v : CounterRecord) : RateStore :=
  fun k' => if k' = k then some v else s k'

/-- A per-endpoint `(windowMs, maxRequests)` configuration. -/
structure Limit where
  windowMs : Int
  maxRequests : Nat
deriving Repr, DecidableEq

/-- The `RATE_LIMITS` table of `rate-limiter.js`. -/
def RATE_LIMITS : String → Option Limit := fun endpoint =>
  if endpoint = "askGuestBot" then some ⟨60000, 20⟩
  else if endpoint = "verifyGuest" then some ⟨60000, 10⟩
  else if endpoint = "syncIcal" then some ⟨60000, 5⟩
  else if endpoint = "submitFeedback" then some ⟨60000, 20⟩
  else if endpoint = "submitContact" then some ⟨60000, 3⟩
  else none

/-- Result of a rate-limit check: `{ allowed, remaining }`. -/
structure RateResult where
  allowed : Bool
  remaining : Nat
deriving Repr, DecidableEq

/-- `cleanupRateLimitStore()`: drop records whose window started more than
300000 ms ago. -/
def cleanupRateLimitStore (now : Int) (s : RateStore) : RateStore :=
  fun k => match s k with
    | some r => if now - r.windowStart > 300000 then none else some r
    | none => none

/-- `checkRateLimit(endpoint, identifier)` from `rate-limiter.js`, with the
clock and the mutable store passed explicitly; returns the result together
with the updated store. -/
def checkRateLimit (endpoint identifier : String) (now : Int) (store : RateStore) :
    RateResult × RateStore :=
  let store := cleanupRateLimitStore now store
  let key := endpoint ++ ":" ++ identifier
  match RATE_LIMITS endpoint with
  | none => (⟨true, 999⟩, store)
  | some limit =>
    match store key with
    | none => (⟨true, limit.maxRequests - 1⟩, store.set key ⟨1, now⟩)
    | some record =>
      if now - record.windowStart > limit.windowMs then
        (⟨true, limit.maxRequests - 1⟩, store.set key ⟨1, now⟩)
      else if record.count ≥ limit.maxRequests then
        (⟨false, 0⟩, store)
      else
        (⟨true, limit.maxRequests - (record.count + 1)⟩,
          store.set key ⟨record.count + 1, record.windowStart⟩)

/-- The store after `n` calls of `checkRateLimit` for the same key, the `j`-th
call happening at time `t j`. -/
def rateCallsAt (endpoint identifier : String) (t : Nat → Int) (store : RateStore) :
    Nat → RateStore
  | 0 => store
  | n + 1 => (checkRateLimit endpoint identifier (t (n + 1))
      (rateCallsAt endpoint identifier t store n)).2

theorem cleanup_none {now : Int} {s : RateStore} {k : String} (h : s k = none) :
    cleanupRateLimitStore now s k = none := by
  simp [cleanupRateLimitStore, h]

theorem cleanup_same_instant {now : Int} {s : RateStore} {k : String} {c : Nat}
    (h : s k = some ⟨c, now⟩) :
    cleanupRateLimitStore now s k = some ⟨c, now⟩ := by
  simp [cleanupRateLimitStore, h]

theorem cleanup_keep {now : Int} {s : RateStore} {k : String} {c : Nat} {ws : Int}
    (h : s k = some ⟨c, ws⟩) (hws : now - ws ≤ 300000) :
    cleanupRateLimitStore now s k = some ⟨c, ws⟩ := by
  simp only [cleanupRateLimitStore, h]
  rw [if_neg (by omega)]

theorem RateStore.set_same (s : RateStore) (k : String) (v : CounterRecord) :
    s.set k v k = some v := by
  simp [RateStore.set]

theorem RateStore.set_other (s : RateStore) {k k' : String} (v : CounterRecord)
    (h : k' ≠ k) : s.set k v k' = s k' := by
  simp [RateStore.set, h]

/-- Every limit in the `RATE_LIMITS` table has a nonnegative window. -/
theorem RATE_LIMITS_windowMs_nonneg {e : String} {l : Limit}
    (h : RATE_LIMITS e = some l) : 0 ≤ l.windowMs := by
  unfold RATE_LIMITS at h
  split at h <;> try split at h
  all_goals first
    | (injection h with h; subst h; decide)
    | exact absurd h (by simp)
    | skip
  repeat' split at h
  all_goals first
    | (injection h with h; subst h; decide)
    | exact absurd h (by simp)

/-- Every limit in the `RATE_LIMITS` table has a window within the cleanup
horizon of 300000 ms. -/
theorem RATE_LIMITS_windowMs_le {e : String} {l : Limit}
    (h : RATE_LIMITS e = some l) : l.windowMs ≤ 300000 := by
  unfold RATE_LIMITS at h
  repeat' split at h
  all_goals first
    | (injection h with h; subst h; decide)
    | exact absurd h (by simp)

/-- After `k` calls (`1 ≤ k ≤ maxRequests`) at times within one window of the
first call, a fresh key holds the record
`{ count := k, windowStart := t 1 }`. -/
theorem rateCallsAt_state {e i : String} {l : Limit} (hl : RATE_LIMITS e = some l)
    {t : Nat → Int} (ht : ∀ j, t j - t 1 ≤ l.windowMs) {s : RateStore}
    (h0 : s (e ++ ":" ++ i) = none) :
    ∀ k, 1 ≤ k → k ≤ l.maxRequests →
      rateCallsAt e i t s k (e ++ ":" ++ i) = some ⟨k, t 1⟩ := by
  have h300 := RATE_LIMITS_windowMs_le hl
  intro k
  induction k with
  | zero => intro h _; exact absurd h (by simp)
  | succ n ih =>
    intro _ hle
    match n, ih with
    | 0, _ =>
      show (checkRateLimit e i (t 1) s).2 (e ++ ":" ++ i) = _
      unfold checkRateLimit
      rw [hl]
      simp only [cleanup_none h0]
      exact RateStore.set_same _ _ _
    | m + 1, ih =>
      have hst := ih (by simp) (by omega)
      show (checkRateLimit e i (t (m + 2))
        (rateCallsAt e i t s (m + 1))).2 (e ++ ":" ++ i) = _
      unfold checkRateLimit
      rw [hl]
      have hcl : cleanupRateLimitStore (t (m + 2)) (rateCallsAt e i t s (m + 1))
          (e ++ ":" ++ i) = some ⟨m + 1, t 1⟩ :=
        cleanup_keep hst (by have := ht (m + 2); omega)
      simp only [hcl]
      have hwin : ¬ (t (m + 2) - t 1 > l.windowMs) := by
        have := ht (m + 2)
        omega
      have hcnt : ¬ (m + 1 ≥ l.maxRequests) := by omega
      simp only [if_neg hwin, if_neg hcnt]
      exact RateStore.set_same _ _ _

/-- Every limit in the `RATE_LIMITS` table allows at least one request. -/
theorem RATE_LIMITS_maxRequests_pos {e : String} {l : Limit}
    (h : RATE_LIMITS e = some l) : 1 ≤ l.maxRequests := by
  unfold RATE_LIMITS at h
  repeat' split at h
  all_goals first
    | (injection h with h; subst h; decide)
    | exact absurd h (by simp)

/-- The `k`-th call (1-indexed, `k ≤ maxRequests`, within one window of the
first call) on a fresh key is allowed with `remaining = maxRequests - k`. -/
theorem checkRateLimit_nth {e i : String} {l : Limit} (hl : RATE_LIMITS e = some l)
    {t : Nat → Int} (ht : ∀ j, t j - t 1 ≤ l.windowMs) {s : RateStore}
    (h0 : s (e ++ ":" ++ i) = none) :
    ∀ k, 1 ≤ k → k ≤ l.maxRequests →
      (checkRateLimit e i (t k) (rateCallsAt e i t s (k - 1))).1 =
        ⟨true, l.maxRequests - k⟩ := by
  have h300 := RATE_LIMITS_windowMs_le hl
  intro k hk1 hkm
  match k, hk1 with
  | 1, _ =>
    show (checkRateLimit e i (t 1) s).1 = _
    unfold checkRateLimit
    rw [hl]
    simp only [cleanup_none h0]
  | m + 2, _ =>
    have hst := rateCallsAt_state hl ht h0 (m + 1) (by simp) (by omega)
    show (checkRateLimit e i (t (m + 2)) (rateCallsAt e i t s (m + 1))).1 = _
    unfold checkRateLimit
    rw [hl]
    have hcl : cleanupRateLimitStore (t (m + 2)) (rateCallsAt e i t s (m + 1))
        (e ++ ":" ++ i) = some ⟨m + 1, t 1⟩ :=
      cleanup_keep hst (by have := ht (m + 2); omega)
    simp only [hcl]
    have hwin : ¬ (t (m + 2) - t 1 > l.windowMs) := by
      have := ht (m + 2)
      omega
    have hcnt : ¬ (m + 1 ≥ l.maxRequests) := by omega
    simp only [if_neg hwin, if_neg hcnt]

/-- The `(maxRequests + 1)`-th call, still within the window, is denied with
`remaining = 0`. -/
theorem checkRateLimit_deny {e i : String} {l : Limit} (hl : RATE_LIMITS e = some l)
    {t : Nat → Int} (ht : ∀ j, t j - t 1 ≤ l.windowMs) {s : RateStore}
    (h0 : s (e ++ ":" ++ i) = none) :
    (checkRateLimit e i (t (l.maxRequests + 1))
      (rateCallsAt e i t s l.maxRequests)).1 = ⟨false, 0⟩ := by
  have h300 := RATE_LIMITS_windowMs_le hl
  have hst := rateCallsAt_state hl ht h0 l.maxRequests
    (RATE_LIMITS_maxRequests_pos hl) (le_refl _)
  unfold checkRateLimit
  rw [hl]
  have hcl : cleanupRateLimitStore (t (l.maxRequests + 1))
      (rateCallsAt e i t s l.maxRequests) (e ++ ":" ++ i) =
        some ⟨l.maxRequests, t 1⟩ :=
    cleanup_keep hst (by have := ht (l.maxRequests + 1); omega)
  simp only [hcl]
  have hwin : ¬ (t (l.maxRequests + 1) - t 1 > l.windowMs) := by
    have := ht (l.maxRequests + 1)
    omega
  simp only [if_neg hwin, ge_iff_le, le_refl, if_true]

/-- Once the window has expired (`now - windowStart > windowMs`), a call resets
the key as if it were the first event. -/
theorem checkRateLimit_reset {e i : String} {l : Limit} (hl : RATE_LIMITS e = some l)
    (now : Int) {s : RateStore} {r : CounterRecord}
    (hr : s (e ++ ":" ++ i) = some r) (hw : l.windowMs < now - r.windowStart) :
    (checkRateLimit e i now s).1 = ⟨true, l.maxRequests - 1⟩ ∧
      (checkRateLimit e i now s).2 (e ++ ":" ++ i) = some ⟨1, now⟩ := by
  unfold checkRateLimit
  rw [hl]
  by_cases hc : now - r.windowStart > 300000
  · have : cleanupRateLimitStore now s (e ++ ":" ++ i) = none := by
      simp [cleanupRateLimitStore, hr, hc]
    simp only [this]
    exact ⟨by trivial, RateStore.set_same _ _ _⟩
  · have : cleanupRateLimitStore now s (e ++ ":" ++ i) = some r := by
      simp [cleanupRateLimitStore, hr, hc]
    simp only [this, if_pos hw]
    exact ⟨by trivial, RateStore.set_same _ _ _⟩

theorem cleanup_cleanup {now now' : Int} (h : now ≤ now') (s : RateStore) (k : String) :
    cleanupRateLimitStore now' (cleanupRateLimitStore now s) k =
      cleanupRateLimitStore now' s k := by
  unfold cleanupRateLimitStore
  match hs : s k with
  | none => simp
  | some r =>
    by_cases hc : now - r.windowStart > 300000
    · have hc' : now' - r.windowStart > 300000 := by omega
      simp [hc, hc']
    · simp [hc]

/-- The updated store agrees with the cleaned input store on every other key. -/
theorem checkRateLimit_other_key {e i : String} (now : Int) (s : RateStore)
    {k' : String} (hk : k' ≠ e ++ ":" ++ i) :
    (checkRateLimit e i now s).2 k' = cleanupRateLimitStore now s k' := by
  unfold checkRateLimit
  cases RATE_LIMITS e with
  | none => rfl
  | some l =>
    simp only []
    match (cleanupRateLimitStore now s) (e ++ ":" ++ i) with
    | none => exact RateStore.set_other _ _ hk
    | some record =>
      by_cases hw : now - record.windowStart > l.windowMs
      · simp only [if_pos hw]
        exact RateStore.set_other _ _ hk
      · by_cases hc : record.count ≥ l.maxRequests
        · simp only [if_neg hw, if_pos hc]
        · simp only [if_neg hw, if_neg hc]
          exact RateStore.set_other _ _ hk

/-- The result of a call depends on the store only through the cleaned record
at its own key. -/
theorem checkRateLimit_congr (e i : String) (now : Int) (s₁ s₂ : RateStore)
    (h : cleanupRateLimitStore now s₁ (e ++ ":" ++ i) =
      cleanupRateLimitStore now s₂ (e ++ ":" ++ i)) :
    (checkRateLimit e i now s₁).1 = (checkRateLimit e i now s₂).1 := by
  cases hL : RATE_LIMITS e with
  | none => simp [checkRateLimit, hL]
  | some l =>
    cases hC : cleanupRateLimitStore now s₂ (e ++ ":" ++ i) with
    | none => simp [checkRateLimit, hL, hC, h.trans hC]
    | some r =>
      by_cases hw : now - r.windowStart > l.windowMs
      · simp [checkRateLimit, hL, hC, h.trans hC, hw]
      · by_cases hm : r.count ≥ l.maxRequests
        · simp [checkRateLimit, hL, hC, h.trans hC, hw, hm]
        · simp [checkRateLimit, hL, hC, h.trans hC, hw, hm]

/-- A call for one key does not change the visible outcome of a later call for
any other key (clock nondecreasing). -/
theorem checkRateLimit_isolated {e i e' i' : String}
    (hk : e' ++ ":" ++ i' ≠ e ++ ":" ++ i) {now now' : Int} (hmono : now ≤ now')
    (s : RateStore) :
    (checkRateLimit e' i' now' ((checkRateLimit e i now s).2)).1 =
      (checkRateLimit e' i' now' s).1 := by
  apply checkRateLimit_congr
  have h1 : (checkRateLimit e i now s).2 (e' ++ ":" ++ i') =
      cleanupRateLimitStore now s (e' ++ ":" ++ i') :=
    checkRateLimit_other_key now s hk
  cases hs : s (e' ++ ":" ++ i') with
  | none =>
    have h2 : cleanupRateLimitStore now s (e' ++ ":" ++ i') = none := cleanup_none hs
    simp [cleanupRateLimitStore, h1, h2, hs]
  | some r =>
    by_cases hc : now - r.windowStart > 300000
    · have h2 : cleanupRateLimitStore now s (e' ++ ":" ++ i') = none := by
        simp [cleanupRateLimitStore, hs, hc]
      have hc' : now' - r.windowStart > 300000 := by omega
      simp [cleanupRateLimitStore, h1, h2, hs, hc, hc']
    · have h2 : cleanupRateLimitStore now s (e' ++ ":" ++ i') = some r := by
        simp [cleanupRateLimitStore, hs, hc]
      simp [cleanupRateLimitStore, h1, h2, hs, hc]

/-- C4: for every endpoint configured in `RATE_LIMITS` and every fresh key, the
fixed-window limiter allows the first `maxRequests` calls within one window
with `remaining = maxRequests - k` on the `k`-th call (strictly decreasing from
`maxRequests - 1` down to `0`), denies the `(maxRequests + 1)`-th call with
`remaining = 0`, resets to the first-event state once `now - windowStart`
exceeds `windowMs`, leaves the outcome for a different identifier unaffected
(for a nondecreasing clock), and returns `allowed = true` with
`remaining = 999` for an unknown endpoint. -/
theorem checkRateLimit_fixed_window {endpoint identifier : String} {limit : Limit}
    (hl : RATE_LIMITS endpoint = some limit) (t : Nat → Int)
    (ht : ∀ j, t j - t 1 ≤ limit.windowMs) {s : RateStore}
    (h0 : s (endpoint ++ ":" ++ identifier) = none) :
    (∀ k, 1 ≤ k → k ≤ limit.maxRequests →
      (checkRateLimit endpoint identifier (t k)
        (rateCallsAt endpoint identifier t s (k - 1))).1 =
          ⟨true, limit.maxRequests - k⟩) ∧
    (checkRateLimit endpoint identifier (t (limit.maxRequests + 1))
        (rateCallsAt endpoint identifier t s limit.maxRequests)).1 = ⟨false, 0⟩ ∧
    (∀ (now' : Int) (s' : RateStore) (r : CounterRecord),
      s' (endpoint ++ ":" ++ identifier) = some r →
      limit.windowMs < now' - r.windowStart →
      (checkRateLimit endpoint identifier now' s').1 =
          ⟨true, limit.maxRequests - 1⟩ ∧
        (checkRateLimit endpoint identifier now' s').2
            (endpoint ++ ":" ++ identifier) = some ⟨1, now'⟩) ∧
    (∀ (e' i' : String) (now₀ now' : Int) (s' : RateStore),
      e' ++ ":" ++ i' ≠ endpoint ++ ":" ++ identifier → now₀ ≤ now' →
      (checkRateLimit e' i' now'
          ((checkRateLimit endpoint identifier now₀ s').2)).1 =
        (checkRateLimit e' i' now' s').1) ∧
    (∀ (e' : String), RATE_LIMITS e' = none →
      ∀ (i' : String) (now' : Int) (s' : RateStore),
        (checkRateLimit e' i' now' s').1 = ⟨true, 999⟩) := by
  refine ⟨checkRateLimit_nth hl ht h0, checkRateLimit_deny hl ht h0,
    fun now' s' r hr hw => checkRateLimit_reset hl now' hr hw,
    fun e' i' now₀ now' s' hk hm => checkRateLimit_isolated hk hm s',
    fun e' he' i' now' s' => ?_⟩
  simp [checkRateLimit, he']

/-- Witness for `checkRateLimit_fixed_window` on the `askGuestBot` endpoint
with a concrete fresh key. -/
theorem checkRateLimit_fixed_window_witness :
    (checkRateLimit "askGuestBot" "1.2.3.4" 0
        (rateCallsAt "askGuestBot" "1.2.3.4" (fun _ => 0) (fun _ => none) 20)).1 =
      ⟨false, 0⟩ ∧
    (checkRateLimit "askGuestBot" "1.2.3.4" 0
        (rateCallsAt "askGuestBot" "1.2.3.4" (fun _ => 0) (fun _ => none) 0)).1 =
      ⟨true, 19⟩ := by
  have h := @checkRateLimit_fixed_window "askGuestBot" "1.2.3.4" ⟨60000, 20⟩
    (by decide) (fun _ => 0) (fun j => by simp) (fun _ => none) rfl
  exact ⟨h.2.1, h.1 1 (by decide) (by decide)⟩

/-! ### Brute-force guard (`recordFailedAttempt` / `checkBruteForce`) -/

/-- A lockout document in `guestbot_rate_limits`. -/
structure LockRecord where
  failedAttempts : Nat
  windowStart : Int
  lastAttempt : Int
  lockoutUntil : Option Int
deriving Repr, DecidableEq

/-- The `BRUTE_FORCE` configuration of `rate-limiter.js`. -/
structure BruteForceConfig where
  maxFailedPerIP : Nat
  ipLockoutMs : Int
  maxFailedPerProperty : Nat
  propertyLockoutMs : Int
deriving Repr, DecidableEq

def BRUTE_FORCE : BruteForceConfig :=
  { maxFailedPerIP := 5, ipLockoutMs := 30 * 60 * 1000,
    maxFailedPerProperty := 20, propertyLockoutMs := 60 * 60 * 1000 }

/-- The persistent store for lockout documents, keyed by
`"verify:<ip>"` and `"verify_prop:<propertyId>"`. -/
def BFStore : Type := String → Option LockRecord

def BFStore.set (s : BFStore) (k : String) (v : LockRecord) : BFStore :=
  fun k' => if k' = k then some v else s k'

/-- The IP-scope transaction of `recordFailedAttempt`: when an unexpired
lockout is present it only bumps the counters; otherwise it resets the window
when `windowAge > ipLockoutMs`, and else increments, activating the lockout
when the post-increment count reaches `maxFailedPerIP`. -/
def recordIpFailure (now : Int) (doc : Option LockRecord) : LockRecord :=
  match doc with
  | some data =>
    let lockoutExpiry := data.lockoutUntil.getD 0
    if now < lockoutExpiry then
      { data with failedAttempts := data.failedAttempts + 1, lastAttempt := now }
    else
      let windowAge := now - data.windowStart
      if windowAge > BRUTE_FORCE.ipLockoutMs then
        { failedAttempts := 1, windowStart := now, lastAttempt := now,
          lockoutUntil := none }
      else
        let newCount := data.failedAttempts + 1
        if newCount ≥ BRUTE_FORCE.maxFailedPerIP then
          { data with
            failedAttempts := newCount, lastAttempt := now,
            lockoutUntil := some (now + BRUTE_FORCE.ipLockoutMs) }
        else
          { data with failedAttempts := newCount, lastAttempt := now }
  | none =>
    { failedAttempts := 1, windowStart := now, lastAttempt := now,
      lockoutUntil := none }

/-- The property-scope transaction of `recordFailedAttempt`: unlike the IP
scope it checks window expiry first, without honoring an active lockout. -/
def recordPropertyFailure (now : Int) (doc : Option LockRecord) : LockRecord :=
  match doc with
  | some data =>
    let windowAge := now - data.windowStart
    if windowAge > BRUTE_FORCE.propertyLockoutMs then
      { failedAttempts := 1, windowStart := now, lastAttempt := now,
        lockoutUntil := none }
    else
      let newCount := data.failedAttempts + 1
      if newCount ≥ BRUTE_FORCE.maxFailedPerProperty then
        { data with
          failedAttempts := newCount, lastAttempt := now,
          lockoutUntil := some (now + BRUTE_FORCE.propertyLockoutMs) }
      else
        { data with failedAttempts := newCount, lastAttempt := now }
  | none =>
    { failedAttempts := 1, windowStart := now, lastAttempt := now,
      lockoutUntil := none }

/-- `recordFailedAttempt(ip, propertyId)`: the two scope transactions, run in
sequence on the shared store. -/
def recordFailedAttempt (ip propertyId : String) (now : Int) (s : BFStore) : BFStore :=
  let s := s.set ("verify:" ++ ip) (recordIpFailure now (s ("verify:" ++ ip)))
  s.set ("verify_prop:" ++ propertyId)
    (recordPropertyFailure now (s ("verify_prop:" ++ propertyId)))

/-- The lockout test of `checkBruteForce` on one document:
`lockoutUntil && now < lockoutUntil`. -/
def isLockedDoc (now : Int) : Option LockRecord → Bool
  | some data =>
    match data.lockoutUntil with
    | some t => decide (now < t)
    | none => false
  | none => false

/-- `checkBruteForce(ip, propertyId)`: reads the two lockout documents in
sequence; any storage error is caught and reported as not locked (fail open).
The two reads are passed as `Except` values so that a storage failure can be
injected. -/
def checkBruteForce (now : Int)
    (ipRead propRead : Except Unit (Option LockRecord)) : Bool :=
  match ipRead with
  | .error _ => false
  | .ok ipDoc =>
    if isLockedDoc now ipDoc then true
    else
      match propRead with
      | .error _ => false
      | .ok propDoc => isLockedDoc now propDoc

/-- `n` repetitions of `recordFailedAttempt` at the same instant. -/
def bfRepeat (ip propertyId : String) (now : Int) : Nat → BFStore → BFStore
  | 0, s => s
  | n + 1, s => bfRepeat ip propertyId now n (recordFailedAttempt ip propertyId now s)

set_option maxRecDepth 8000 in
/-- C2 (failing input): starting from an empty store, one failure at t = 0 and
nineteen more at t = 1800000 drive the property record to
`failedAttempts = 20` with `lockoutUntil = 5400000`, and `checkBruteForce` at
t = 3660000 reports locked; but one further failure at t = 3660001 — while the
lockout is still unexpired (3660001 < 5400000) — resets the property record,
clearing `lockoutUntil`, so `checkBruteForce` at t = 3660002 reports not
locked.  This contradicts the claimed invariant that a set `lockoutUntil` is
honored until `now ≥ lockoutUntil` on both scopes. -/
theorem recordFailedAttempt_clears_unexpired_property_lockout :
    (bfRepeat "ip" "p" 1800000 19
        (recordFailedAttempt "ip" "p" 0 (fun _ => none)) "verify_prop:p" =
      some ⟨20, 0, 1800000, some 5400000⟩) ∧
    (checkBruteForce 3660000
        (.ok (bfRepeat "ip" "p" 1800000 19
          (recordFailedAttempt "ip" "p" 0 (fun _ => none)) "verify:ip"))
        (.ok (bfRepeat "ip" "p" 1800000 19
          (recordFailedAttempt "ip" "p" 0 (fun _ => none)) "verify_prop:p")) =
      true) ∧
    (recordFailedAttempt "ip" "p" 3660001
        (bfRepeat "ip" "p" 1800000 19
          (recordFailedAttempt "ip" "p" 0 (fun _ => none))) "verify_prop:p" =
      some ⟨1, 3660001, 3660001, none⟩) ∧
    (checkBruteForce 3660002
        (.ok (recordFailedAttempt "ip" "p" 3660001
          (bfRepeat "ip" "p" 1800000 19
            (recordFailedAttempt "ip" "p" 0 (fun _ => none))) "verify:ip"))
        (.ok (recordFailedAttempt "ip" "p" 3660001
          (bfRepeat "ip" "p" 1800000 19
            (recordFailedAttempt "ip" "p" 0 (fun _ => none))) "verify_prop:p")) =
      false) := by
  decide

/-! ### Firestore-backed rate limiter and SSRF address checks -/

/-- `checkRateLimitFirestore(endpoint, identifier, customLimit)`: the
transactional read is passed as an `Except` value (an `error` models a storage
failure anywhere in the transaction, which the `catch` turns into fail-open
`{allowed: true, remaining: 1}`).  Returns the result together with the
document written by the transaction, if any. -/
def checkRateLimitFirestore (endpoint : String) (customLimit : Option Limit)
    (now : Int) (read : Except Unit (Option CounterRecord)) :
    RateResult × Option CounterRecord :=
  match customLimit.orElse (fun _ => RATE_LIMITS endpoint) with
  | none => (⟨true, 999⟩, none)
  | some limit =>
    match read with
    | .error _ => (⟨true, 1⟩, none)
    | .ok none => (⟨true, limit.maxRequests - 1⟩, some ⟨1, now⟩)
    | .ok (some data) =>
      if now - data.windowStart > limit.windowMs then
        (⟨true, limit.maxRequests - 1⟩, some ⟨1, now⟩)
      else if data.count ≥ limit.maxRequests then
        (⟨false, 0⟩, none)
      else
        (⟨true, limit.maxRequests - (data.count + 1)⟩,
          some ⟨data.count + 1, data.windowStart⟩)

/-- Split a character list on `'.'` (used to model the anchored IPv4 regex). -/
def splitDots : List Char → List (List Char)
  | [] => [[]]
  | c :: rest =>
    match splitDots rest with
    | [] => [[]]
    | g :: gs => if c = '.' then [] :: g :: gs else (c :: g) :: gs

/-- `\d+` converted with `Number`: a nonempty all-digit group, read base 10. -/
def digitGroup? (cs : List Char) : Option Nat :=
  if cs ≠ [] ∧ cs.all Char.isDigit then
    some (cs.foldl (fun n c => n * 10 + (c.toNat - 48)) 0)
  else none

/-- Model of the regex `^(\d+)\.(\d+)\.(\d+)\.(\d+)$`: exactly four
dot-separated nonempty digit groups, converted with `Number`. -/
def parseIPv4 (s : String) : Option (Nat × Nat × Nat × Nat) :=
  match (splitDots s.toList).map digitGroup? with
  | [some a, some b, some c, some d] => some (a, b, c, d)
  | _ => none

/-- `isPrivateIP(ip)` from the functions entry point: non-IPv4 strings are
treated as private (cautious), otherwise the private/reserved first octets
are matched. -/
def isPrivateIP (ip : String) : Bool :=
  match parseIPv4 ip with
  | none => true
  | some (a, b, _, _) =>
    a == 0 || a == 10 || a == 127 ||
    (a == 172 && 16 ≤ b && b ≤ 31) ||
    (a == 192 && b == 168) ||
    (a == 169 && b == 254)

/-- `resolvesToPrivateIP(hostname)`: IPv4 literals skip DNS; otherwise the DNS
lookup (an `Except`, where `error` models resolution failure) is validated
with `isPrivateIP`; resolution failure blocks (fail closed). -/
def resolvesToPrivateIP (hostname : String) (lookup : Except Unit String) : Bool :=
  if (parseIPv4 hostname).isSome then false
  else
    match lookup with
    | .ok address => isPrivateIP address
    | .error _ => true

/-- C3: on an internal storage or network error each check fails in its
designated direction: the Firestore rate-limit check returns
`allowed = true` (fail open), the brute-force lockout lookup returns not
locked (fail open) whichever of its two reads fails, and DNS resolution
failure during SSRF validation is treated as blocked (fail closed). -/
theorem error_policy_fail_open_fail_closed :
    (∀ (endpoint : String) (customLimit : Option Limit) (now : Int),
      (checkRateLimitFirestore endpoint customLimit now (.error ())).1.allowed =
        true) ∧
    (∀ (now : Int) (propRead : Except Unit (Option LockRecord)),
      checkBruteForce now (.error ()) propRead = false) ∧
    (∀ (now : Int) (ipDoc : Option LockRecord), isLockedDoc now ipDoc = false →
      checkBruteForce now (.ok ipDoc) (.error ()) = false) ∧
    (∀ (hostname : String), (parseIPv4 hostname).isSome = false →
      resolvesToPrivateIP hostname (.error ()) = true) := by
  refine ⟨fun endpoint customLimit now => ?_, fun now propRead => rfl,
    fun now ipDoc h => ?_, fun hostname h => ?_⟩
  · unfold checkRateLimitFirestore
    cases customLimit.orElse (fun _ => RATE_LIMITS endpoint) <;> rfl
  · simp [checkBruteForce, h]
  · simp [resolvesToPrivateIP, h]

/-- Witness for `error_policy_fail_open_fail_closed` at concrete inputs. -/
theorem error_policy_fail_open_fail_closed_witness :
    resolvesToPrivateIP "calendar.example.com" (.error ()) = true ∧
    checkBruteForce 5 (.ok none) (.error ()) = false ∧
    (checkRateLimitFirestore "askGuestBot" none 0 (.error ())).1.allowed = true :=
  ⟨error_policy_fail_open_fail_closed.2.2.2 "calendar.example.com" (by decide),
    error_policy_fail_open_fail_closed.2.2.1 5 none (by decide),
    error_policy_fail_open_fail_closed.1 "askGuestBot" none 0⟩

/-! ### String helpers shared by the text-processing modules

JS strings are modelled as Lean `String`s (one `Char` per UTF-16 code unit for
the inputs considered here); `toLowerCase` is modelled by its ASCII case
mapping and `includes` by substring search. -/

/-- ASCII case mapping of JS `toLowerCase`. -/
def jsToLowerChar (c : Char) : Char :=
  if 'A' ≤ c ∧ c ≤ 'Z' then Char.ofNat (c.toNat + 32) else c

def jsToLower (s : String) : String :=
  String.mk (s.toList.map jsToLowerChar)

/-- Substring search on character lists (JS `String.prototype.includes`). -/
def listIncludes (needle : List Char) : List Char → Bool
  | [] => needle.isEmpty
  | c :: t => needle.isPrefixOf (c :: t) || listIncludes needle t

def jsIncludes (hay needle : String) : Bool :=
  listIncludes needle.toList hay.toList

/-- JS `a || b` for strings: the empty string is falsy. -/
def jsOr (s dflt : String) : String := if s = "" then dflt else s

/-! ### Sensitive-data handler (`sensitive-data-handler.js`) -/

/-- `SENSITIVE_KEYWORDS` from `sensitive-data-handler.js`. -/
def SENSITIVE_KEYWORDS : List String :=
  ["wifi", "wi-fi", "wireless", "internet", "password", "passcode", "pass code",
   "network", "ssid", "door", "lock", "lockbox", "lock box", "key", "entry",
   "enter", "get in", "getting in", "access", "code", "gate", "garage", "open",
   "unlock", "check in", "check-in", "checkin", "arrive", "arrival", "connect",
   "connecting", "log in", "login", "sign in"]

/-- `isSensitiveQuestion(question)`. -/
def isSensitiveQuestion (question : String) : Bool :=
  SENSITIVE_KEYWORDS.any (fun keyword => jsIncludes (jsToLower question) keyword)

/-- `SENSITIVE_RATE_LIMIT`: max 5 lookups per 10-minute window. -/
structure SensitiveRateLimit where
  maxLookups : Nat
  windowMs : Int
deriving Repr, DecidableEq

def SENSITIVE_RATE_LIMIT : SensitiveRateLimit := ⟨5, 10 * 60 * 1000⟩

/-- `cleanupSensitiveRateStore()`: drop entries older than `2 × windowMs`. -/
def cleanupSensitiveRateStore (now : Int) (s : RateStore) : RateStore :=
  fun k => match s k with
    | some r =>
      if now - r.windowStart > SENSITIVE_RATE_LIMIT.windowMs * 2 then none
      else some r
    | none => none

/-- `checkSensitiveRateLimit(identifier)`: fixed-window counter under key
`"sensitive:<identifier>"`. -/
def checkSensitiveRateLimit (identifier : String) (now : Int) (store : RateStore) :
    Bool × RateStore :=
  let store := cleanupSensitiveRateStore now store
  let key := "sensitive:" ++ identifier
  match store key with
  | none => (true, store.set key ⟨1, now⟩)
  | some record =>
    if now - record.windowStart > SENSITIVE_RATE_LIMIT.windowMs then
      (true, store.set key ⟨1, now⟩)
    else if record.count ≥ SENSITIVE_RATE_LIMIT.maxLookups then
      (false, store)
    else
      (true, store.set key ⟨record.count + 1, record.windowStart⟩)

/-- A Firestore property document, restricted to the fields read by
`buildPropertyInfo` and `validateResponse`.  Fields are strings with `""`
playing the role of a missing/falsy value, matching JS truthiness. -/
structure Property where
  name : String := ""
  city : String := ""
  state : String := ""
  address : String := ""
  wifiName : String := ""
  wifiPassword : String := ""
  doorCode : String := ""
  gateCode : String := ""
  garageCode : String := ""
  lockboxCode : String := ""
  lockboxLocation : String := ""
  checkInTime : String := ""
  checkOutTime : String := ""
  houseRules : String := ""
  customInfo : String := ""
  localTips : String := ""
deriving Repr, DecidableEq

/-- The `location` expression of `buildPropertyInfo`. -/
def propertyLocation (p : Property) : String :=
  if p.city ≠ "" ∧ p.state ≠ "" then p.city ++ ", " ++ p.state
  else jsOr p.city (jsOr p.state "the area")

/-- The `lines` array of `buildPropertyInfo`, as a function of the two gate
outcomes (`includeSensitive` = sensitive keyword matched, `allowed` = result
of `checkSensitiveRateLimit`, consulted only when `includeSensitive`). -/
def buildPropertyInfoLines (p : Property) (includeSensitive allowed : Bool) :
    List String :=
  ["- Name: " ++ jsOr p.name "Vacation Rental",
   "- Location: " ++ propertyLocation p,
   "- Address: " ++ jsOr p.address "Not provided"]
  ++ (if includeSensitive then
        if allowed then
          (if p.wifiName ≠ "" then
            ["- WiFi: Network: " ++ p.wifiName ++ ", Password: " ++
              jsOr p.wifiPassword "Ask host"]
          else ["- WiFi: Not provided"])
          ++ ["- Door Code: " ++ jsOr p.doorCode "Not provided"]
          ++ (if p.lockboxCode ≠ "" then
                ["- Lockbox: Code: " ++ p.lockboxCode ++
                  (if p.lockboxLocation ≠ "" then
                    ", Location: " ++ p.lockboxLocation
                  else "")]
              else ["- Lockbox: Not provided"])
          ++ ["- Gate Code: " ++ jsOr p.gateCode "Not provided"]
        else ["- Access codes: Rate limit reached. Please try again later."]
      else
        ["- WiFi/access codes: Available (ask specifically about WiFi or door codes)"])
  ++ ["- Check-in: " ++ jsOr p.checkInTime "Not specified",
      "- Check-out: " ++ jsOr p.checkOutTime "Not specified",
      "- House Rules: " ++ jsOr p.houseRules "Standard vacation rental rules",
      "- Additional Property Info: " ++ jsOr p.customInfo "None",
      "- Host\x27s Local Recommendations: " ++ jsOr p.localTips "None provided"]

/-- Result of `buildPropertyInfo`. -/
structure PropertyInfoResult where
  propertyInfo : String
  sensitiveIncluded : Bool
  location : String
deriving Repr, DecidableEq

/-- `buildPropertyInfo(property, question, identifier)` with clock and the
sensitive-lookup store threaded explicitly; the rate limiter is consulted
(and the store mutated) only when the question matches a sensitive keyword. -/
def buildPropertyInfo (p : Property) (question identifier : String) (now : Int)
    (store : RateStore) : PropertyInfoResult × RateStore :=
  let includeSensitive := isSensitiveQuestion question
  if includeSensitive then
    let gate := checkSensitiveRateLimit identifier now store
    (⟨String.intercalate "\n" (buildPropertyInfoLines p true gate.1),
      gate.1, propertyLocation p⟩, gate.2)
  else
    (⟨String.intercalate "\n" (buildPropertyInfoLines p false true),
      false, propertyLocation p⟩, store)

/-- C10: for any two property records agreeing on all non-secret fields and
any question containing no sensitive keyword, `buildPropertyInfo` returns the
identical `propertyInfo` string with `sensitiveIncluded = false` — secret
fields cannot influence the prompt text when the gate is closed. -/
theorem buildPropertyInfo_noninterference (p q : Property)
    (hname : p.name = q.name) (hcity : p.city = q.city) (hstate : p.state = q.state)
    (haddr : p.address = q.address) (hin : p.checkInTime = q.checkInTime)
    (hout : p.checkOutTime = q.checkOutTime) (hrules : p.houseRules = q.houseRules)
    (hinfo : p.customInfo = q.customInfo) (htips : p.localTips = q.localTips)
    (question identifier : String) (now : Int) (store : RateStore)
    (hq : isSensitiveQuestion question = false) :
    (buildPropertyInfo p question identifier now store).1.propertyInfo =
      (buildPropertyInfo q question identifier now store).1.propertyInfo ∧
    (buildPropertyInfo p question identifier now store).1.sensitiveIncluded = false ∧
    (buildPropertyInfo q question identifier now store).1.sensitiveIncluded = false := by
  unfold buildPropertyInfo
  simp [buildPropertyInfoLines, propertyLocation, jsOr, hq, hname, hcity, hstate,
    haddr, hin, hout, hrules, hinfo, htips]

/-- Witness for `buildPropertyInfo_noninterference`: two records differing only
in `doorCode`, with a question that matches no sensitive keyword. -/
theorem buildPropertyInfo_noninterference_witness :
    (buildPropertyInfo { name := "A", doorCode := "1111" } "how far is the beach"
        "id" 0 (fun _ => none)).1.propertyInfo =
      (buildPropertyInfo { name := "A", doorCode := "2222" } "how far is the beach"
        "id" 0 (fun _ => none)).1.propertyInfo ∧
    (buildPropertyInfo { name := "A", doorCode := "1111" } "how far is the beach"
        "id" 0 (fun _ => none)).1.sensitiveIncluded = false ∧
    (buildPropertyInfo { name := "A", doorCode := "2222" } "how far is the beach"
        "id" 0 (fun _ => none)).1.sensitiveIncluded = false :=
  buildPropertyInfo_noninterference
    { name := "A", doorCode := "1111" } { name := "A", doorCode := "2222" }
    rfl rfl rfl rfl rfl rfl rfl rfl rfl "how far is the beach" "id" 0
    (fun _ => none) (by decide)

/-- Concrete property record whose garage code is set, for the C6
counterexample. -/
def garageDemoProperty : Property :=
  { name := "Beach House", city := "Santa Cruz", state := "CA",
    address := "1 Ocean Ave", wifiName := "BeachWifi", wifiPassword := "surf123",
    doorCode := "1234", gateCode := "4321", garageCode := "9999",
    lockboxCode := "5678", lockboxLocation := "porch",
    checkInTime := "3 PM", checkOutTime := "11 AM" }

set_option maxRecDepth 8000 in
/-- C6 counterexample: for a sensitive question that the limiter allows,
`buildPropertyInfo` reports `sensitiveIncluded = true` but the garage code —
a set secret field — appears nowhere in the emitted text, and no garage line
(set or "not provided") is emitted at all. -/
theorem buildPropertyInfo_omits_garage_code :
    isSensitiveQuestion "what is the garage code" = true ∧
    (checkSensitiveRateLimit "1.2.3.4:prop1" 0 (fun _ => none)).1 = true ∧
    (buildPropertyInfo garageDemoProperty "what is the garage code"
        "1.2.3.4:prop1" 0 (fun _ => none)).1.sensitiveIncluded = true ∧
    garageDemoProperty.garageCode = "9999" ∧
    jsIncludes (buildPropertyInfo garageDemoProperty "what is the garage code"
        "1.2.3.4:prop1" 0 (fun _ => none)).1.propertyInfo "9999" = false ∧
    jsIncludes (buildPropertyInfo garageDemoProperty "what is the garage code"
        "1.2.3.4:prop1" 0 (fun _ => none)).1.propertyInfo "arage" = false := by
  decide

/-- C6 as amended: for every sensitive question, when the limiter allows,
`buildPropertyInfo` emits the WiFi line (network plus password, the password
falling back to "Ask host") when `wifiName` is set, renders WiFi, door code,
lockbox and gate code as "Not provided" lines when unset, and reports
`sensitiveIncluded = true`; the garage code is never emitted in any branch;
when the limiter denies, it emits the rate-limit placeholder instead of any
secret (the output is independent of every secret field) with
`sensitiveIncluded = false`. -/
theorem buildPropertyInfo_sensitive_gate (p : Property)
    (question identifier : String) (now : Int) (store : RateStore)
    (hq : isSensitiveQuestion question = true) :
    ((checkSensitiveRateLimit identifier now store).1 = true →
      (buildPropertyInfo p question identifier now store).1.sensitiveIncluded =
          true ∧
      (buildPropertyInfo p question identifier now store).1.propertyInfo =
        String.intercalate "\n" (buildPropertyInfoLines p true true) ∧
      (p.wifiName ≠ "" →
        ("- WiFi: Network: " ++ p.wifiName ++ ", Password: " ++
            jsOr p.wifiPassword "Ask host") ∈ buildPropertyInfoLines p true true) ∧
      (p.wifiName = "" →
        "- WiFi: Not provided" ∈ buildPropertyInfoLines p true true) ∧
      ("- Door Code: " ++ jsOr p.doorCode "Not provided") ∈
        buildPropertyInfoLines p true true ∧
      (p.lockboxCode ≠ "" →
        ("- Lockbox: Code: " ++ p.lockboxCode ++
            (if p.lockboxLocation ≠ "" then ", Location: " ++ p.lockboxLocation
             else "")) ∈ buildPropertyInfoLines p true true) ∧
      (p.lockboxCode = "" →
        "- Lockbox: Not provided" ∈ buildPropertyInfoLines p true true) ∧
      ("- Gate Code: " ++ jsOr p.gateCode "Not provided") ∈
        buildPropertyInfoLines p true true) ∧
    (∀ g : String,
      buildPropertyInfo { p with garageCode := g } question identifier now store =
        buildPropertyInfo p question identifier now store) ∧
    ((checkSensitiveRateLimit identifier now store).1 = false →
      (buildPropertyInfo p question identifier now store).1.sensitiveIncluded =
          false ∧
      "- Access codes: Rate limit reached. Please try again later." ∈
        buildPropertyInfoLines p true false ∧
      (buildPropertyInfo p question identifier now store).1.propertyInfo =
        String.intercalate "\n" (buildPropertyInfoLines p true false) ∧
      (∀ q : Property, p.name = q.name → p.city = q.city → p.state = q.state →
        p.address = q.address → p.checkInTime = q.checkInTime →
        p.checkOutTime = q.checkOutTime → p.houseRules = q.houseRules →
        p.customInfo = q.customInfo → p.localTips = q.localTips →
        (buildPropertyInfo p question identifier now store).1.propertyInfo =
          (buildPropertyInfo q question identifier now store).1.propertyInfo)) := by
  refine ⟨fun hallow => ?_, fun g => rfl, fun hdeny => ?_⟩
  · refine ⟨?_, ?_, fun hw => ?_, fun hw => ?_, ?_, fun hl => ?_, fun hl => ?_, ?_⟩
    · simp [buildPropertyInfo, hq, hallow]
    · simp [buildPropertyInfo, hq, hallow]
    · simp [buildPropertyInfoLines, hw]
    · simp [buildPropertyInfoLines, hw]
    · by_cases hw : p.wifiName = "" <;> simp [buildPropertyInfoLines, hw]
    · by_cases hw : p.wifiName = "" <;> simp [buildPropertyInfoLines, hw, hl]
    · by_cases hw : p.wifiName = "" <;> simp [buildPropertyInfoLines, hw, hl]
    · by_cases hw : p.wifiName = "" <;> by_cases hl : p.lockboxCode = "" <;>
        simp [buildPropertyInfoLines, hw, hl]
  · refine ⟨?_, ?_, ?_, ?_⟩
    · simp [buildPropertyInfo, hq, hdeny]
    · simp [buildPropertyInfoLines]
    · simp [buildPropertyInfo, hq, hdeny]
    · intro q hname hcity hstate haddr hin hout hrules hinfo htips
      unfold buildPropertyInfo
      simp [buildPropertyInfoLines, propertyLocation, jsOr, hq, hdeny, hname,
        hcity, hstate, haddr, hin, hout, hrules, hinfo, htips]

/-- Witness for `buildPropertyInfo_sensitive_gate` at a concrete record,
question and fresh store (the limiter allows). -/
theorem buildPropertyInfo_sensitive_gate_witness :
    (buildPropertyInfo garageDemoProperty "what is the door code" "id" 0
        (fun _ => none)).1.sensitiveIncluded = true ∧
    ("- Door Code: " ++ jsOr garageDemoProperty.doorCode "Not provided") ∈
      buildPropertyInfoLines garageDemoProperty true true := by
  have h := buildPropertyInfo_sensitive_gate garageDemoProperty
    "what is the door code" "id" 0 (fun _ => none) (by decide)
  have h1 := h.1 (by decide)
  exact ⟨h1.1, h1.2.2.2.2.1⟩

/-! ### Context detector (`context-detector.js`) -/

/-- `CONTEXT_KEYWORDS`, in object-entry (insertion) order. -/
def CONTEXT_KEYWORDS : List (String × List String) :=
  [("kitchen",
    ["kitchen", "cook", "cooking", "oven", "stove", "microwave", "fridge",
     "refrigerator", "freezer", "dishwasher", "coffee", "toaster", "blender",
     "utensil", "plate", "cup", "glass", "pot", "pan", "trash", "recycling",
     "garbage", "disposal", "sink", "ice", "water filter"]),
   ("tv",
    ["tv", "television", "remote", "netflix", "hulu", "streaming", "roku",
     "apple tv", "fire stick", "chromecast", "hdmi", "speaker", "sound",
     "volume", "surround", "soundbar", "movie", "channel", "cable",
     "bluetooth", "airplay"]),
   ("thermostat",
    ["thermostat", "temperature", "ac", "a/c", "air conditioning", "heating",
     "heat", "cold", "warm", "cool", "fan", "hvac", "climate", "furnace",
     "heater"]),
   ("bathroom",
    ["bathroom", "shower", "bath", "tub", "bathtub", "hot water", "towel",
     "toilet", "shampoo", "soap", "toiletries", "hair dryer", "drain"]),
   ("pool",
    ["pool", "hot tub", "jacuzzi", "spa", "swim", "swimming", "sauna",
     "pool heater", "pool cover", "chlorine"]),
   ("checkout",
    ["checkout", "check-out", "check out", "leaving", "departure", "depart",
     "key return", "final", "last day", "vacate", "clean up before",
     "strip the bed", "take out trash"])]

/-- The inner scoring loop of `detectContext`: sum of the lengths of the
keywords found as substrings of the lower-cased question. -/
def contextScore (keywords : List String) (lower : String) : Nat :=
  keywords.foldl
    (fun score keyword =>
      if jsIncludes lower keyword then score + keyword.length else score) 0

/-- The outer loop of `detectContext`, tracking the best context and score
(`score > bestScore` keeps the first-seen context on ties). -/
def detectGo (lower : String) :
    List (String × List String) → Option String → Nat → Option String × Nat
  | [], best, bestScore => (best, bestScore)
  | entry :: rest, best, bestScore =>
    let score := contextScore entry.2 lower
    if score > bestScore then detectGo lower rest (some entry.1) score
    else detectGo lower rest best bestScore

/-- Result of `detectContext`: `{ detected, confidence }`; confidence is a
rational (exact model of the JS float arithmetic involved here). -/
structure ContextDetection where
  detected : Option String
  confidence : ℚ
deriving Repr, DecidableEq

/-- `detectContext(question)`. -/
def detectContext (question : String) : ContextDetection :=
  let lower := jsToLower question
  let r := detectGo lower CONTEXT_KEYWORDS none 0
  if r.2 < 2 then ⟨none, 0⟩
  else ⟨r.1, min ((r.2 : ℚ) / 20) 1⟩

/-- Result of `resolveContext`: `{ context, source }`. -/
structure ContextResolution where
  context : String
  source : String
deriving Repr, DecidableEq

/-- `resolveContext(question, qrContext)`: the detected context wins when its
confidence is at least 0.3; otherwise `qrContext || 'general'` with source
`"qr"`. -/
def resolveContext (question qrContext : String) : ContextResolution :=
  let d := detectContext question
  match d.detected with
  | some c =>
    if (3 : ℚ) / 10 ≤ d.confidence then ⟨c, "detected"⟩
    else ⟨jsOr qrContext "general", "qr"⟩
  | none => ⟨jsOr qrContext "general", "qr"⟩

/-- The best per-topic score over the keyword table (spec-side definition of
"the winning score"). -/
def bestContextScore (question : String) : Nat :=
  (CONTEXT_KEYWORDS.map fun e => contextScore e.2 (jsToLower question)).foldl max 0

theorem detectGo_snd (lower : String) :
    ∀ (entries : List (String × List String)) (best : Option String) (bs : Nat),
      (detectGo lower entries best bs).2 =
        entries.foldl (fun acc e => max acc (contextScore e.2 lower)) bs := by
  intro entries
  induction entries with
  | nil => intro best bs; rfl
  | cons e rest ih =>
    intro best bs
    simp only [detectGo, List.foldl_cons]
    by_cases h : contextScore e.2 lower > bs
    · rw [if_pos h, ih]
      congr 1
      omega
    · rw [if_neg h, ih]
      congr 1
      omega

theorem detectGo_fst (lower : String) :
    ∀ (entries : List (String × List String)) (best : Option String) (bs : Nat),
      ((detectGo lower entries best bs).1 = best ∧
        (detectGo lower entries best bs).2 = bs) ∨
      ∃ p ∈ entries, (detectGo lower entries best bs).1 = some p.1 ∧
        (detectGo lower entries best bs).2 = contextScore p.2 lower := by
  intro entries
  induction entries with
  | nil => intro best bs; exact Or.inl ⟨rfl, rfl⟩
  | cons e rest ih =>
    intro best bs
    simp only [detectGo]
    by_cases h : contextScore e.2 lower > bs
    · rw [if_pos h]
      rcases ih (some e.1) (contextScore e.2 lower) with ⟨h1, h2⟩ | ⟨p, hp, h1, h2⟩
      · exact Or.inr ⟨e, List.mem_cons_self _ _, h1, h2⟩
      · exact Or.inr ⟨p, List.mem_cons_of_mem _ hp, h1, h2⟩
    · rw [if_neg h]
      rcases ih best bs with ⟨h1, h2⟩ | ⟨p, hp, h1, h2⟩
      · exact Or.inl ⟨h1, h2⟩
      · exact Or.inr ⟨p, List.mem_cons_of_mem _ hp, h1, h2⟩

/-- For a best score of at least 6, the normalized confidence
`min(score/20, 1)` clears the 0.3 threshold. -/
theorem confidence_threshold {k : Nat} (h : 6 ≤ k) :
    (3 : ℚ) / 10 ≤ min ((k : ℚ) / 20) 1 := by
  have hk : (6 : ℚ) ≤ (k : ℚ) := by exact_mod_cast h
  have h1 : (3 : ℚ) / 10 ≤ (k : ℚ) / 20 := by linarith
  have h2 : (3 : ℚ) / 10 ≤ 1 := by norm_num
  exact le_min h1 h2

/-- C9 (amended: the fallback source label is `"qr"`, not `"fallback"`): the
per-topic score is the summed character length of matched keywords; no
detection when the best score is below 2, otherwise
`confidence = min(score/20, 1)` for a topic achieving the best score; the
detected topic is used with `source = "detected"` exactly when detected and
its confidence is at least 0.3, otherwise the caller-supplied default (or
`"general"` when empty) is returned with `source = "qr"`. -/
theorem resolveContext_spec (question qrContext : String) :
    (bestContextScore question < 2 →
      detectContext question = ⟨none, 0⟩ ∧
      resolveContext question qrContext = ⟨jsOr qrContext "general", "qr"⟩) ∧
    (2 ≤ bestContextScore question →
      (detectContext question).confidence =
        min ((bestContextScore question : ℚ) / 20) 1 ∧
      (∃ p ∈ CONTEXT_KEYWORDS, (detectContext question).detected = some p.1 ∧
        contextScore p.2 (jsToLower question) = bestContextScore question)) ∧
    (∀ c, (detectContext question).detected = some c →
      ((3 : ℚ) / 10 ≤ (detectContext question).confidence →
        resolveContext question qrContext = ⟨c, "detected"⟩) ∧
      ((detectContext question).confidence < 3 / 10 →
        resolveContext question qrContext = ⟨jsOr qrContext "general", "qr"⟩)) ∧
    ((detectContext question).detected = none →
      resolveContext question qrContext = ⟨jsOr qrContext "general", "qr"⟩) := by
  have hfold : (detectGo (jsToLower question) CONTEXT_KEYWORDS none 0).2 =
      bestContextScore question := by
    rw [detectGo_snd, bestContextScore, List.foldl_map]
  refine ⟨fun hlt => ?_, fun hge => ?_, fun c hc => ?_, fun hnone => ?_⟩
  · have hd : detectContext question = ⟨none, 0⟩ := by
      unfold detectContext
      rw [if_pos (by rw [hfold]; exact hlt)]
    exact ⟨hd, by simp [resolveContext, hd]⟩
  · have hd : detectContext question =
        ⟨(detectGo (jsToLower question) CONTEXT_KEYWORDS none 0).1,
          min (((detectGo (jsToLower question) CONTEXT_KEYWORDS none 0).2 : ℚ)
            / 20) 1⟩ := by
      unfold detectContext
      rw [if_neg (by rw [hfold]; omega)]
    refine ⟨by rw [hd, hfold], ?_⟩
    rcases detectGo_fst (jsToLower question) CONTEXT_KEYWORDS none 0 with
      ⟨_, h2⟩ | ⟨p, hp, h1, h2⟩
    · rw [hfold] at h2
      omega
    · exact ⟨p, hp, by rw [hd]; exact h1, by rw [← hfold, ← h2]⟩
  · constructor
    · intro hconf
      simp only [resolveContext]
      rw [hc]
      simp only [if_pos hconf]
    · intro hconf
      simp only [resolveContext]
      rw [hc]
      simp only [if_neg (not_le.mpr hconf)]
  · simp only [resolveContext]
    rw [hnone]

/-- Witness for `resolveContext_spec`: no keyword in "hello" (fallback), and
the dishwasher question detects the kitchen context. -/
theorem resolveContext_spec_witness :
    detectContext "hello" = ⟨none, 0⟩ ∧
    resolveContext "hello" "kitchen" = ⟨"kitchen", "qr"⟩ ∧
    resolveContext "the dishwasher beeps" "general" = ⟨"kitchen", "detected"⟩ := by
  have hconf : (detectContext "the dishwasher beeps").confidence =
      min (((10 : Nat) : ℚ) / 20) 1 := rfl
  refine ⟨(resolveContext_spec "hello" "kitchen").1 (by decide) |>.1,
    (resolveContext_spec "hello" "kitchen").1 (by decide) |>.2, ?_⟩
  refine ((resolveContext_spec "the dishwasher beeps" "general").2.2.1 "kitchen"
    (by decide)).1 ?_
  rw [hconf]
  exact confidence_threshold (by decide)

/-- C9 counterexample: the claim labels the fallback source `"fallback"`, but
the code returns `source = "qr"` when no context is detected. -/
theorem resolveContext_fallback_label :
    resolveContext "hello" "kitchen" = ⟨"kitchen", "qr"⟩ ∧
    (resolveContext "hello" "kitchen").source ≠ "fallback" := by
  refine ⟨?_, ?_⟩
  · exact (resolveContext_spec "hello" "kitchen").1 (by decide) |>.2
  · intro h
    have := (resolveContext_spec "hello" "kitchen").1 (by decide) |>.2
    rw [this] at h
    exact absurd h (by decide)

/-! ### A small backtracking regex engine

The injection/leak/extraction catalogues of the repository are JS regexes.
They are embedded here as `Rx` values over an engine whose match list is
ordered by JS backtracking priority (alternation left-first, greedy
quantifiers longest-first, lazy shortest-first), so that the head of the list
is the match JS `exec` returns.  The quantified subexpressions in the
catalogues are all single-character classes, which the engine represents
directly (`starCls`/`plusCls`), making matching structurally recursive. -/

/-- JS `\s` (also the whitespace set of `trim`). -/
def isJsSpace (c : Char) : Bool :=
  c = ' ' || c = '\t' || c = '\n' || c = '\r' || c.toNat = 0x0b || c.toNat = 0x0c ||
  c.toNat = 0xa0 || c.toNat = 0x1680 ||
  (0x2000 ≤ c.toNat && c.toNat ≤ 0x200a) ||
  c.toNat = 0x2028 || c.toNat = 0x2029 || c.toNat = 0x202f ||
  c.toNat = 0x205f || c.toNat = 0x3000 || c.toNat = 0xfeff

/-- JS `\d`. -/
def isDigitChar (c : Char) : Bool := '0' ≤ c && c ≤ '9'

/-- Regular expressions over the constructs used by the repository's
catalogues. -/
inductive Rx where
  | eps : Rx
  | cls (p : Char → Bool) : Rx
  | seq (a b : Rx) : Rx
  | alt (a b : Rx) : Rx
  | opt (greedy : Bool) (r : Rx) : Rx
  | starCls (greedy : Bool) (p : Char → Bool) : Rx
  | plusCls (greedy : Bool) (p : Char → Bool) : Rx
  | group (r : Rx) : Rx
  | eos : Rx

/-- Length of the run of leading characters satisfying `p`. -/
def countLeading (p : Char → Bool) : List Char → Nat
  | [] => 0
  | c :: rest => if p c then countLeading p rest + 1 else 0

/-- All ways to match `r` against a prefix of `s`, in backtracking priority
order; each result is the remaining suffix together with the last capture
group's contents. -/
def matchesRx : Rx → List Char → List (List Char × Option (List Char))
  | .eps, s => [(s, none)]
  | .cls p, s =>
    match s with
    | [] => []
    | c :: rest => if p c then [(rest, none)] else []
  | .seq a b, s =>
    (matchesRx a s).flatMap fun r₁ =>
      (matchesRx b r₁.1).map fun r₂ => (r₂.1, r₂.2.orElse fun _ => r₁.2)
  | .alt a b, s => matchesRx a s ++ matchesRx b s
  | .opt greedy r, s =>
    if greedy then matchesRx r s ++ [(s, none)] else (s, none) :: matchesRx r s
  | .starCls greedy p, s =>
    let k := countLeading p s
    let opts := (List.range (k + 1)).map fun n => (s.drop n, (none : Option (List Char)))
    if greedy then opts.reverse else opts
  | .plusCls greedy p, s =>
    let k := countLeading p s
    let opts := (List.range k).map fun n => (s.drop (n + 1), (none : Option (List Char)))
    if greedy then opts.reverse else opts
  | .group r, s =>
    (matchesRx r s).map fun r₁ => (r₁.1, some (s.take (s.length - r₁.1.length)))
  | .eos, s => if s.isEmpty then [(s, none)] else []

/-- The JS match at the current position: consumed length and capture. -/
def matchHead (r : Rx) (s : List Char) : Option (Nat × Option (List Char)) :=
  match matchesRx r s with
  | [] => none
  | (s', cap) :: _ => some (s.length - s'.length, cap)

/-- Worker for `execAll`; the fuel strictly exceeds the list length, and every
step consumes at least one character, so the fuel never runs out. -/
def execAllGo (r : Rx) : Nat → List Char → List (Option (List Char))
  | 0, _ => []
  | _ + 1, [] =>
    (match matchHead r [] with
     | some (_, cap) => [cap]
     | none => [])
  | fuel + 1, c :: rest =>
    match matchHead r (c :: rest) with
    | none => execAllGo r fuel rest
    | some (len, cap) => cap :: execAllGo r fuel (List.drop (len - 1) rest)

/-- All matches of a `/g` regex (JS `exec` loop / `String.match`): leftmost,
non-overlapping, resuming after each match. -/
def execAll (r : Rx) (s : List Char) : List (Option (List Char)) :=
  execAllGo r (s.length + 1) s

/-- JS `pattern.test(text)`: a match exists at some position. -/
def searchRx (r : Rx) : List Char → Bool
  | [] => !(matchesRx r []).isEmpty
  | c :: rest => !(matchesRx r (c :: rest)).isEmpty || searchRx r rest

def testRx (r : Rx) (s : String) : Bool := searchRx r s.toList

/-- The number of `/g` matches (`response.match(p)?.length ?? 0`). -/
def countMatches (r : Rx) (text : String) : Nat := (execAll r text.toList).length

/-- The capture of every `/g` match (`match[1]` per `exec` iteration). -/
def execCaptures (r : Rx) (text : String) : List String :=
  (execAll r text.toList).map fun cap => String.mk (cap.getD [])

/-- A single case-insensitive character (all catalogue regexes carry `/i`). -/
def ciChar (c : Char) : Rx := .cls fun x => jsToLowerChar x = jsToLowerChar c

def rxSeqList (l : List Rx) : Rx := l.foldr .seq .eps

def rxFail : Rx := .cls fun _ => false

def rxAltList : List Rx → Rx
  | [] => rxFail
  | [r] => r
  | r :: rest => .alt r (rxAltList rest)

/-- Case-insensitive literal. -/
def rxLit (s : String) : Rx := rxSeqList (s.toList.map ciChar)

def rxSstar : Rx := .starCls true isJsSpace
def rxSplus : Rx := .plusCls true isJsSpace
def rxS : Rx := .cls isJsSpace

/-! ### Input sanitizer (`input-sanitizer.js`) -/

/-- The character class `[\x00-\x08\x0B\x0C\x0E-\x1F\x7F-\x9F]` stripped by
`removeControlChars`. -/
def isStrippedControl (c : Char) : Bool :=
  c.toNat ≤ 0x08 || (0x0b ≤ c.toNat && c.toNat ≤ 0x0c) ||
  (0x0e ≤ c.toNat && c.toNat ≤ 0x1f) || (0x7f ≤ c.toNat && c.toNat ≤ 0x9f)

/-- `removeControlChars(str)`. -/
def removeControlChars (s : String) : String :=
  String.mk (s.toList.filter fun c => !isStrippedControl c)

/-- JS `String.prototype.trim`. -/
def jsTrim (s : String) : String :=
  String.mk (((s.toList.dropWhile isJsSpace).reverse.dropWhile isJsSpace).reverse)

def MAX_QUESTION_LENGTH : Nat := 500

/-- Result of `sanitizeQuestion` (`injectionDetected` is absent — i.e.
falsy — on the early rejection path). -/
structure SanitizeResult where
  sanitized : String
  wasModified : Bool
  rejected : Bool
  injectionDetected : Bool
deriving Repr, DecidableEq

/-- `sanitizeQuestion(question)` for string input.  The injection scan
(`detectInjection(...).safe === false`) is abstracted as the parameter
`detect`; both branches of the scan return the same `sanitized` and
`wasModified`, so every property proved about those fields holds for any
detector. -/
def sanitizeQuestion (detect : String → Bool) (question : String) : SanitizeResult :=
  if question = "" then ⟨"", false, true, false⟩
  else
    let sanitized := jsTrim question
    let afterControlChars := removeControlChars sanitized
    let wasControlCharsRemoved := afterControlChars ≠ sanitized
    let sanitized := afterControlChars
    let wasTruncated := sanitized.length > MAX_QUESTION_LENGTH
    let sanitized :=
      if wasTruncated then String.mk (sanitized.toList.take MAX_QUESTION_LENGTH)
      else sanitized
    if detect sanitized then
      ⟨sanitized, wasControlCharsRemoved || wasTruncated, true, true⟩
    else
      ⟨sanitized, wasControlCharsRemoved || wasTruncated, false, false⟩

theorem string_mk_length (l : List Char) : (String.mk l).length = l.length := rfl

/-- C8 (amended: the length bound applies to the trimmed, control-stripped
text): whenever the trimmed and control-stripped input still exceeds 500 code
units, `sanitizeQuestion` returns a `sanitized` of length exactly 500 with
`wasModified = true`, for every injection detector. -/
theorem sanitizeQuestion_truncates (detect : String → Bool) (question : String)
    (h : 500 < (removeControlChars (jsTrim question)).length) :
    (sanitizeQuestion detect question).sanitized.length = 500 ∧
    (sanitizeQuestion detect question).wasModified = true := by
  have hne : question ≠ "" := by
    intro he
    rw [he] at h
    exact absurd h (by decide)
  have htr : (removeControlChars (jsTrim question)).length > MAX_QUESTION_LENGTH := h
  have hlen : (String.mk ((removeControlChars (jsTrim question)).toList.take
      MAX_QUESTION_LENGTH)).length = 500 := by
    rw [string_mk_length, List.length_take]
    have hl : (removeControlChars (jsTrim question)).toList.length =
        (removeControlChars (jsTrim question)).length := rfl
    simp only [MAX_QUESTION_LENGTH]
    omega
  unfold sanitizeQuestion
  rw [if_neg hne]
  simp only [htr, if_true, if_pos htr]
  by_cases hd : detect (String.mk ((removeControlChars (jsTrim question)).toList.take
      MAX_QUESTION_LENGTH))
  · simp only [hd, if_true, if_pos hd]
    exact ⟨hlen, by simp⟩
  · simp only [hd, if_false, if_neg hd]
    exact ⟨hlen, by simp⟩

set_option maxRecDepth 100000 in
/-- Witness for `sanitizeQuestion_truncates` on a 501-character input. -/
theorem sanitizeQuestion_truncates_witness :
    (sanitizeQuestion (fun _ => false)
        (String.mk (List.replicate 501 'a'))).sanitized.length = 500 ∧
    (sanitizeQuestion (fun _ => false)
        (String.mk (List.replicate 501 'a'))).wasModified = true :=
  sanitizeQuestion_truncates (fun _ => false) (String.mk (List.replicate 501 'a'))
    (by decide)

set_option maxRecDepth 100000 in
/-- C8 counterexample: an input of 501 code units whose last unit is a space
is longer than 500 units, yet after the `trim` step nothing is truncated:
the output has length 500 with `wasModified = false`.  (The detector argument
is irrelevant: both scan branches return the same two fields.) -/
theorem sanitizeQuestion_trailing_space_counterexample :
    (String.mk (List.replicate 500 'a' ++ [' '])).length = 501 ∧
    (sanitizeQuestion (fun _ => false)
        (String.mk (List.replicate 500 'a' ++ [' ']))).sanitized.length = 500 ∧
    (sanitizeQuestion (fun _ => false)
        (String.mk (List.replicate 500 'a' ++ [' ']))).wasModified = false := by
  decide

/-! ### Response validator (`response-validator.js`) -/

/-- `["""]?` — an optional straight double quote. -/
def rxQuoteOpt : Rx := .opt true (.cls fun c => c = '"')

/-- `(\S+?)` body — lazy one-or-more non-space. -/
def rxNonSpaceLazyPlus : Rx := .plusCls false fun c => !isJsSpace c

/-- `\S+` — greedy one-or-more non-space. -/
def rxNonSpaceGreedyPlus : Rx := .plusCls true fun c => !isJsSpace c

/-- `(?:\s|[.,!]|$)`. -/
def rxDelim : Rx := rxAltList [rxS, .cls (fun c => c = '.' || c = ',' || c = '!'), .eos]

/-- `(?:is|:)\s*["""]?(\S+?)["""]?(?:\s|[.,!]|$)` — the shared tail of the
value-extraction patterns. -/
def rxValueTail : Rx := rxSeqList [rxAltList [rxLit "is", rxLit ":"],
  rxSstar, rxQuoteOpt, .group rxNonSpaceLazyPlus, rxQuoteOpt, rxDelim]

/-- `/(?:wifi|wi-fi|wireless)\s*password\s*(?:is|:)\s*…/gi`. -/
def wifiPattern1 : Rx := rxSeqList [
  rxAltList [rxLit "wifi", rxLit "wi-fi", rxLit "wireless"],
  rxSstar, rxLit "password", rxSstar, rxValueTail]

/-- `/password\s*(?:is|:)\s*…/gi`. -/
def wifiPattern2 : Rx := rxSeqList [rxLit "password", rxSstar, rxValueTail]

/-- `/(?:network|wifi|wi-fi|ssid)\s*(?:name|is|:)\s*["""]?([^\s""",]+)/gi`. -/
def ssidPattern : Rx := rxSeqList [
  rxAltList [rxLit "network", rxLit "wifi", rxLit "wi-fi", rxLit "ssid"],
  rxSstar, rxAltList [rxLit "name", rxLit "is", rxLit ":"],
  rxSstar, rxQuoteOpt,
  .group (.plusCls true fun c => !isJsSpace c && c ≠ '"' && c ≠ ',')]

/-- `/(?:door|entry)\s*code\s*(?:is|:)\s*…/gi`. -/
def doorCodePattern : Rx := rxSeqList [rxAltList [rxLit "door", rxLit "entry"],
  rxSstar, rxLit "code", rxSstar, rxValueTail]

/-- `/(?:gate)\s*code\s*(?:is|:)\s*…/gi`. -/
def gateCodePattern : Rx := rxSeqList [rxLit "gate", rxSstar, rxLit "code",
  rxSstar, rxValueTail]

/-- `/(?:lockbox|lock\s*box)\s*code\s*(?:is|:)\s*…/gi`. -/
def lockboxCodePattern : Rx := rxSeqList [
  rxAltList [rxLit "lockbox", rxSeqList [rxLit "lock", rxSstar, rxLit "box"]],
  rxSstar, rxLit "code", rxSstar, rxValueTail]

/-- `/(?:garage)\s*code\s*(?:is|:)\s*…/gi`. -/
def garageCodePattern : Rx := rxSeqList [rxLit "garage", rxSstar, rxLit "code",
  rxSstar, rxValueTail]

/-- `(\d{1,2}(?::\d{2})?\s*(?:am|pm|AM|PM)?)` — the captured time value. -/
def rxTimeValue : Rx := .group (rxSeqList [
  .cls isDigitChar, .opt true (.cls isDigitChar),
  .opt true (rxSeqList [ciChar ':', .cls isDigitChar, .cls isDigitChar]),
  rxSstar, .opt true (rxAltList [rxLit "am", rxLit "pm"])])

/-- `/check[-\s]?in\s*(?:time\s*)?(?:is|:)\s*…/gi`. -/
def checkInPattern : Rx := rxSeqList [
  rxLit "check", .opt true (.cls fun c => c = '-' || isJsSpace c), rxLit "in",
  rxSstar, .opt true (rxSeqList [rxLit "time", rxSstar]),
  rxAltList [rxLit "is", rxLit ":"], rxSstar, rxTimeValue]

/-- `/check[-\s]?out\s*(?:time\s*)?(?:is|:)\s*…/gi`. -/
def checkOutPattern : Rx := rxSeqList [
  rxLit "check", .opt true (.cls fun c => c = '-' || isJsSpace c), rxLit "out",
  rxSstar, .opt true (rxSeqList [rxLit "time", rxSstar]),
  rxAltList [rxLit "is", rxLit ":"], rxSstar, rxTimeValue]

/-- One extracted `{ type, value }` pair. -/
structure Mentioned where
  type : String
  value : String
deriving Repr, DecidableEq

/-- `extractMentionedValues(text)`: every pattern family is run as a `/g`
exec loop, in source order, tagging each capture with its field type. -/
def extractMentionedValues (text : String) : List Mentioned :=
  (execCaptures wifiPattern1 text).map (fun v => ⟨"wifiPassword", v⟩) ++
  (execCaptures wifiPattern2 text).map (fun v => ⟨"wifiPassword", v⟩) ++
  (execCaptures ssidPattern text).map (fun v => ⟨"wifiName", v⟩) ++
  (execCaptures doorCodePattern text).map (fun v => ⟨"doorCode", v⟩) ++
  (execCaptures gateCodePattern text).map (fun v => ⟨"gateCode", v⟩) ++
  (execCaptures lockboxCodePattern text).map (fun v => ⟨"lockboxCode", v⟩) ++
  (execCaptures garageCodePattern text).map (fun v => ⟨"garageCode", v⟩) ++
  (execCaptures checkInPattern text).map (fun v => ⟨"checkInTime", v⟩) ++
  (execCaptures checkOutPattern text).map (fun v => ⟨"checkOutTime", v⟩)

/-- `normalize(val)`: lower-case, trim, strip wrapping straight quotes
(`/^["'"]+|["'"]+$/g`). -/
def normalizeVal (val : String) : String :=
  let isQ : Char → Bool := fun c => c = '"' || c = '\''
  let t := (jsTrim (jsToLower val)).toList
  String.mk (((t.dropWhile isQ).reverse.dropWhile isQ).reverse)

/-- The `fieldMap` of `validateResponse`. -/
def fieldValue (p : Property) : String → String
  | "wifiPassword" => p.wifiPassword
  | "wifiName" => p.wifiName
  | "doorCode" => p.doorCode
  | "gateCode" => p.gateCode
  | "garageCode" => p.garageCode
  | "lockboxCode" => p.lockboxCode
  | "checkInTime" => p.checkInTime
  | "checkOutTime" => p.checkOutTime
  | _ => ""

structure Hallucination where
  type : String
  mentioned : String
  actual : String
deriving Repr, DecidableEq

/-- Literal global replacement (the redaction regex is the mentioned value
with all metacharacters escaped, so it matches literally). -/
def replaceAllList (needle repl : List Char) : Nat → List Char → List Char
  | 0, hay => hay
  | _ + 1, [] => []
  | fuel + 1, c :: rest =>
    if needle ≠ [] ∧ needle.isPrefixOf (c :: rest) then
      repl ++ replaceAllList needle repl fuel (List.drop needle.length (c :: rest))
    else c :: replaceAllList needle repl fuel rest

def replaceAll (hay needle repl : String) : String :=
  String.mk (replaceAllList needle.toList repl.toList (hay.toList.length + 1) hay.toList)

structure ValidationResult where
  validated : String
  hallucinations : List Hallucination
deriving Repr, DecidableEq

/-- `validateResponse(response, property)`: flag every mentioned value whose
field is set on the property and does not match after normalization, then
redact each flagged value with the fixed placeholder. -/
def validateResponse (response : String) (p : Property) : ValidationResult :=
  let mentioned := extractMentionedValues response
  let hallucinations := mentioned.foldl
    (fun acc item =>
      let actual := fieldValue p item.type
      if actual ≠ "" ∧ normalizeVal item.value ≠ normalizeVal actual then
        acc ++ [⟨item.type, item.value, actual⟩]
      else acc) []
  let validated := hallucinations.foldl
    (fun text h =>
      replaceAll text h.mentioned "[please ask me specifically for this information]")
    response
  ⟨validated, hallucinations⟩

set_option maxRecDepth 100000 in
/-- C5 counterexample: on `"The WiFi password is wrongpass."` with
`wifiPassword = "surf123"`, the wrong value is matched by both the
wifi-specific and the generic password pattern, so `validateResponse` records
two hallucination entries, not exactly one. -/
theorem validateResponse_two_entries :
    (validateResponse "The WiFi password is wrongpass."
        { wifiPassword := "surf123" }).hallucinations =
      [⟨"wifiPassword", "wrongpass", "surf123"⟩,
       ⟨"wifiPassword", "wrongpass", "surf123"⟩] ∧
    (validateResponse "The WiFi password is wrongpass."
        { wifiPassword := "surf123" }).hallucinations.length ≠ 1 := by
  decide

set_option maxRecDepth 100000 in
/-- C5 as amended: the wrong-password response yields two (identical)
hallucination entries and a validated text containing neither `wrongpass` nor
`surf123`; the pool-hours response yields no hallucinations and is returned
unchanged. -/
theorem validateResponse_demo :
    (validateResponse "The WiFi password is wrongpass."
        { wifiPassword := "surf123" }).hallucinations.length = 2 ∧
    jsIncludes (validateResponse "The WiFi password is wrongpass."
        { wifiPassword := "surf123" }).validated "wrongpass" = false ∧
    jsIncludes (validateResponse "The WiFi password is wrongpass."
        { wifiPassword := "surf123" }).validated "surf123" = false ∧
    validateResponse "Pool hours are 8-10." { wifiPassword := "surf123" } =
      ⟨"Pool hours are 8-10.", []⟩ := by
  decide

/-! ### Output filter (`output-filter.js`) -/

def MAX_OUTPUT_LENGTH : Nat := 2000

/-- `SYSTEM_LEAK_PATTERNS` (all `/i`). -/
def SYSTEM_LEAK_PATTERNS : List Rx :=
  [rxSeqList [rxLit "you", rxSplus, rxLit "are", rxSplus, rxLit "guestbot",
     .opt true (ciChar ','), rxSplus, rxLit "a", .opt true (ciChar 'n'), rxSplus,
     rxLit "ai", rxSplus, rxLit "concierge"],
   rxSeqList [rxLit "important", rxSstar,
     .cls (fun c => c = '-' || c = '–' || c = '—' || c = ':'), rxSstar,
     rxLit "multi", .opt true (.cls fun c => c = '-' || isJsSpace c),
     rxLit "language"],
   rxSeqList [rxLit "property", rxSplus, rxLit "info", rxSstar, ciChar ':'],
   rxSeqList [rxLit "context", rxSstar, ciChar ':', rxSstar,
     .group (rxAltList [rxLit "focus on", rxLit "provide general"])],
   rxSeqList [rxLit "location", rxSplus, rxLit "awareness", rxSstar, ciChar ':'],
   rxSeqList [rxLit "security", rxSplus, rxLit "rule", .opt true (ciChar 's'),
     rxSstar, ciChar ':'],
   rxSeqList [rxLit "anti", .opt true (.cls fun c => c = '-' || isJsSpace c),
     rxLit "jailbreak"],
   rxSeqList [rxLit "system", rxSstar, rxLit "instruction"],
   rxLit "systemInstruction"]

/-- `\s*[:=]\s*\S+` — the shared tail of the disclosure-counting patterns. -/
def rxCodeTail : Rx := rxSeqList [rxSstar, .cls (fun c => c = ':' || c = '='),
  rxSstar, rxNonSpaceGreedyPlus]

/-- `ACCESS_CODE_PATTERNS` (all `/gi`), in source order. -/
def ACCESS_CODE_PATTERNS : List Rx :=
  [rxSeqList [rxAltList [rxLit "door", rxLit "entry"], rxSstar, rxLit "code",
     rxCodeTail],
   rxSeqList [rxAltList [rxSeqList [rxLit "lock", rxSstar, rxLit "box"],
     rxLit "lockbox"], rxSstar, rxLit "code", rxCodeTail],
   rxSeqList [rxLit "gate", rxSstar, rxLit "code", rxCodeTail],
   rxSeqList [rxLit "garage", rxSstar, rxLit "code", rxCodeTail],
   rxSeqList [rxAltList [rxLit "wifi", rxLit "wi-fi"], rxSstar,
     rxLit "password", rxCodeTail],
   rxSeqList [rxLit "password", rxCodeTail]]

/-- The total number of access-code matches across all patterns. -/
def totalCodeMatches (response : String) : Nat :=
  ACCESS_CODE_PATTERNS.foldl (fun acc p => acc + countMatches p response) 0

/-- JS `lastIndexOf` of a substring: greatest occurrence index, `-1` if
absent. -/
def lastIndexOfList (hay sub : List Char) : Int :=
  match ((List.range (hay.length + 1)).filter fun i =>
      sub.isPrefixOf (hay.drop i)).max? with
  | some i => (i : Int)
  | none => -1

/-- The truncation branch of `filterOutput`: cut to 2000 units, back up to the
last sentence boundary when it lies past `2000 * 0.7` (i.e. at index 1400 or
later — the float product is strictly below 1400), else append an ellipsis. -/
def truncateOutput (response : String) : String :=
  let truncated := response.toList.take MAX_OUTPUT_LENGTH
  let lastSentenceEnd := max (lastIndexOfList truncated ['.', ' '])
    (max (lastIndexOfList truncated ['!', ' ']) (lastIndexOfList truncated ['?', ' ']))
  if lastSentenceEnd > 1399 then String.mk (truncated.take (lastSentenceEnd.toNat + 1))
  else String.mk truncated ++ "..."

structure FilterResult where
  filtered : String
  wasFiltered : Bool
  reason : Option String
deriving Repr, DecidableEq

/-- The canned replacement for a bulk code disclosure. -/
def bulkDisclosureMessage : String :=
  "For security, I can only share one or two access codes at a time. Please ask about a specific code (e.g., \x27What\x27s the WiFi password?\x27 or \x27What\x27s the door code?\x27)."

/-- `filterOutput(response)` for string input (the non-string case coincides
with the empty string: both are falsy). -/
def filterOutput (response : String) : FilterResult :=
  if response = "" then
    ⟨"I\x27m sorry, I couldn\x27t generate a response. Please try again.", true,
      some "empty_response"⟩
  else if SYSTEM_LEAK_PATTERNS.any (fun p => testRx p response) then
    ⟨"I\x27m here to help with questions about your stay! What would you like to know about the property?",
      true, some "system_prompt_leak"⟩
  else if totalCodeMatches response ≥ 3 then
    ⟨bulkDisclosureMessage, true, some "bulk_code_disclosure"⟩
  else
    let filtered := if response.length > MAX_OUTPUT_LENGTH then truncateOutput response
      else response
    ⟨filtered, filtered ≠ response, if filtered ≠ response then some "truncated" else none⟩

/-- C7 as amended: `filterOutput` sums the match counts of all code-disclosure
patterns; for a non-empty response matching no leak signature, a total of at
least 3 replaces the whole response with the fixed one-code-at-a-time message
and `reason = "bulk_code_disclosure"`, and a total below 3 is never replaced
by this rule — but a response matching only 2 distinct patterns can still
reach a total of 3 and be replaced. -/
theorem filterOutput_bulk_threshold (response : String) (hne : response ≠ "")
    (hleak : SYSTEM_LEAK_PATTERNS.any (fun p => testRx p response) = false) :
    (3 ≤ totalCodeMatches response →
      filterOutput response = ⟨bulkDisclosureMessage, true,
        some "bulk_code_disclosure"⟩) ∧
    (totalCodeMatches response < 3 →
      (filterOutput response).reason ≠ some "bulk_code_disclosure") := by
  constructor
  · intro h3
    simp only [filterOutput, if_neg hne, hleak, Bool.false_eq_true, if_false,
      if_pos h3]
  · intro h3
    have hn3 : ¬ (totalCodeMatches response ≥ 3) := by omega
    simp only [filterOutput, if_neg hne, hleak, Bool.false_eq_true, if_false,
      if_neg hn3]
    by_cases ht : (if response.length > MAX_OUTPUT_LENGTH then
        truncateOutput response else response) ≠ response
    · simp only [if_pos ht]
      intro h
      exact absurd (Option.some.inj h) (by decide)
    · simp only [if_neg ht]
      intro h
      exact Option.noConfusion h

set_option maxRecDepth 400000 in
/-- Witness for `filterOutput_bulk_threshold`: two code disclosures (total 2)
pass through; the same text with a third disclosure is replaced. -/
theorem filterOutput_bulk_threshold_witness :
    (filterOutput "door code: 1111. gate code: 2222.").reason ≠
      some "bulk_code_disclosure" ∧
    filterOutput "door code: 1111. door code: 2222. gate code: 3333." =
      ⟨bulkDisclosureMessage, true, some "bulk_code_disclosure"⟩ :=
  ⟨(filterOutput_bulk_threshold "door code: 1111. gate code: 2222."
      (by decide) (by decide)).2 (by decide),
   (filterOutput_bulk_threshold "door code: 1111. door code: 2222. gate code: 3333."
      (by decide) (by decide)).1 (by decide)⟩

set_option maxRecDepth 400000 in
/-- C7 counterexample: a response containing matches of exactly 2 distinct
code-disclosure patterns (two door codes and one gate code) and no leak
signature is nevertheless replaced, because the summed match count is 3. -/
theorem filterOutput_two_distinct_patterns_blocked :
    ((ACCESS_CODE_PATTERNS.map fun p =>
        countMatches p "door code: 1111. door code: 2222. gate code: 3333.").filter
      (fun n => n ≠ 0)).length = 2 ∧
    SYSTEM_LEAK_PATTERNS.any (fun p =>
      testRx p "door code: 1111. door code: 2222. gate code: 3333.") = false ∧
    totalCodeMatches "door code: 1111. door code: 2222. gate code: 3333." = 3 ∧
    filterOutput "door code: 1111. door code: 2222. gate code: 3333." =
      ⟨bulkDisclosureMessage, true, some "bulk_code_disclosure"⟩ := by
  decide

/-! ### SSRF-safe fetcher (functions entry point)

`new URL`, `dns.lookup`, `fetch` and relative-URL resolution are runtime
facilities, modelled as the abstract `FetchWorld`; everything the repository
itself computes (`isPrivateUrl`, `isPrivateIP`, `resolvesToPrivateIP`, the
`safeFetch` redirect loop) is embedded in full.  `safeFetch` additionally
returns the list of URLs actually passed to `fetch`, in order. -/

/-- The parts of a WHATWG `URL` object read by the fetcher. -/
structure UrlRec where
  protocol : String
  hostname : String
deriving Repr, DecidableEq

/-- A `fetch` response under `redirect: 'manual'`. -/
structure FetchResp where
  status : Nat
  location : Option String
deriving Repr, DecidableEq

/-- The runtime environment of `safeFetch`: URL parsing (`none` = the `URL`
constructor throws), DNS lookup (`error` = resolution failure), the network,
and relative-URL resolution (`new URL(location, base).href`). -/
structure FetchWorld where
  parse : String → Option UrlRec
  dns : String → Except Unit String
  net : String → FetchResp
  resolveRel : String → String → String

/-- `hostname.replace(/^\[|\]$/g, '')`. -/
def stripBrackets (s : String) : String :=
  let l := s.toList
  let l := if l.head? = some '[' then l.tail else l
  let l := if l.getLast? = some ']' then l.dropLast else l
  String.mk l

/-- `[0-9a-f]` with the `/i` flag. -/
def isHexCi (c : Char) : Bool :=
  isDigitChar c || ('a' ≤ jsToLowerChar c && jsToLowerChar c ≤ 'f')

/-- `/^fc[0-9a-f]{2}:/i.test(s) || /^fd[0-9a-f]{2}:/i.test(s)`. -/
def isUniqueLocalIPv6 (s : String) : Bool :=
  match s.toList with
  | c1 :: c2 :: c3 :: c4 :: c5 :: _ =>
    jsToLowerChar c1 = 'f' && (jsToLowerChar c2 = 'c' || jsToLowerChar c2 = 'd') &&
    isHexCi c3 && isHexCi c4 && c5 = ':'
  | _ => false

/-- `/^fe[89ab][0-9a-f]:/i.test(s)`. -/
def isLinkLocalIPv6 (s : String) : Bool :=
  match s.toList with
  | c1 :: c2 :: c3 :: c4 :: c5 :: _ =>
    jsToLowerChar c1 = 'f' && jsToLowerChar c2 = 'e' &&
    (jsToLowerChar c3 = '8' || jsToLowerChar c3 = '9' ||
      jsToLowerChar c3 = 'a' || jsToLowerChar c3 = 'b') &&
    isHexCi c4 && c5 = ':'
  | _ => false

/-- `/^::ffff:/i.test(s)`. -/
def isIPv4MappedIPv6 (s : String) : Bool :=
  match s.toList with
  | c1 :: c2 :: c3 :: c4 :: c5 :: c6 :: c7 :: _ =>
    c1 = ':' && c2 = ':' && jsToLowerChar c3 = 'f' && jsToLowerChar c4 = 'f' &&
    jsToLowerChar c5 = 'f' && jsToLowerChar c6 = 'f' && c7 = ':'
  | _ => false

def jsEndsWith (s suffix : String) : Bool :=
  List.isSuffixOf suffix.toList s.toList

/-- The body of `isPrivateUrl` on a successfully parsed URL: the or-chain of
its early `return true` conditions, in source order. -/
def isPrivateUrlRec (rec : UrlRec) : Bool :=
  let hostname := jsToLower rec.hostname
  let cleanHostname := stripBrackets hostname
  (hostname = "localhost" || hostname = "127.0.0.1" ||
    hostname = "::1" || hostname = "[::1]") ||
  (match parseIPv4 hostname with
   | some (a, b, c, d) =>
     a = 10 || (a = 172 && 16 ≤ b && b ≤ 31) || (a = 192 && b = 168) ||
     (a = 169 && b = 254) || (a = 0 && b = 0 && c = 0 && d = 0)
   | none => false) ||
  isUniqueLocalIPv6 cleanHostname || isLinkLocalIPv6 cleanHostname ||
  isIPv4MappedIPv6 cleanHostname ||
  (hostname = "169.254.169.254" || hostname = "metadata.google.internal") ||
  (jsEndsWith hostname ".local" || jsEndsWith hostname ".internal") ||
  (rec.protocol ≠ "http:" && rec.protocol ≠ "https:")

/-- `isPrivateUrl(urlString)`: an unparsable URL is private (blocked). -/
def isPrivateUrl (w : FetchWorld) (urlString : String) : Bool :=
  match w.parse urlString with
  | none => true
  | some rec => isPrivateUrlRec rec

/-- The `safeFetch` loop (`for i = 0; i <= maxRedirects; i++`), with fuel
`maxRedirects + 1`; the second component is the list of URLs passed to
`fetch`. -/
def safeFetchGo (w : FetchWorld) : Nat → String → List String →
    Except String FetchResp × List String
  | 0, _, trace => (.error "Too many redirects", trace)
  | fuel + 1, url, trace =>
    match w.parse url with
    | none => (.error "Blocked: private URL", trace)
    | some rec =>
      if isPrivateUrlRec rec then (.error "Blocked: private URL", trace)
      else if resolvesToPrivateIP rec.hostname (w.dns rec.hostname) then
        (.error "Blocked: resolves to private IP", trace)
      else
        let resp := w.net url
        if resp.status = 301 ∨ resp.status = 302 ∨ resp.status = 303 ∨
            resp.status = 307 ∨ resp.status = 308 then
          match resp.location with
          | none => (.error "Redirect without location header", trace ++ [url])
          | some loc => safeFetchGo w fuel (w.resolveRel loc url) (trace ++ [url])
        else (.ok resp, trace ++ [url])

/-- `safeFetch(urlString, options, maxRedirects)`. -/
def safeFetch (w : FetchWorld) (url : String) (maxRedirects : Nat) :
    Except String FetchResp × List String :=
  safeFetchGo w (maxRedirects + 1) url []

/-- Modelled from the claim's words: the blocked hostname categories —
`localhost`, the loopback literals, the RFC1918 / link-local / unspecified
IPv4 literals, the metadata address and hostname, the IPv6 unique-local,
link-local and IPv4-mapped forms, and the `.local` / `.internal` suffixes. -/
def specBlockedHostname (hostname : String) : Bool :=
  let h := jsToLower hostname
  let clean := stripBrackets h
  h = "localhost" ||
  (h = "127.0.0.1" || h = "::1" || h = "[::1]") ||
  (match parseIPv4 h with
   | some (a, b, c, d) =>
     a = 10 || (a = 172 && 16 ≤ b && b ≤ 31) || (a = 192 && b = 168) ||
     (a = 169 && b = 254) || (a = 0 && b = 0 && c = 0 && d = 0)
   | none => false) ||
  (h = "169.254.169.254" || h = "metadata.google.internal") ||
  isUniqueLocalIPv6 clean || isLinkLocalIPv6 clean || isIPv4MappedIPv6 clean ||
  jsEndsWith h ".local" || jsEndsWith h ".internal"

/-- Modelled from the claim's words: a blocked target — unparsable, a
non-http(s) scheme, a blocked hostname literal, or a (non-IPv4-literal)
hostname whose DNS resolution fails or yields a private address. -/
def specBlockedUrl (w : FetchWorld) (url : String) : Bool :=
  match w.parse url with
  | none => true
  | some rec =>
    (rec.protocol ≠ "http:" && rec.protocol ≠ "https:") ||
    specBlockedHostname rec.hostname ||
    (!(parseIPv4 rec.hostname).isSome &&
      (match w.dns rec.hostname with
       | .ok addr => isPrivateIP addr
       | .error _ => true))

/-- When both code-side checks pass, none of the claim's blocked categories
applies. -/
theorem specBlockedUrl_eq_false {w : FetchWorld} {u : String} {rec : UrlRec}
    (hp : w.parse u = some rec) (h1 : isPrivateUrlRec rec = false)
    (h2 : resolvesToPrivateIP rec.hostname (w.dns rec.hostname) = false) :
    specBlockedUrl w u = false := by
  have hdns : (!(parseIPv4 rec.hostname).isSome &&
      (match w.dns rec.hostname with
       | .ok addr => isPrivateIP addr
       | .error _ => true)) = false := by
    by_cases hip : (parseIPv4 rec.hostname).isSome
    · simp [hip]
    · unfold resolvesToPrivateIP at h2
      rw [if_neg (by simpa using hip)] at h2
      simp [hip, h2]
  have hhost : specBlockedHostname rec.hostname = false := by
    unfold isPrivateUrlRec at h1
    unfold specBlockedHostname
    simp only [Bool.or_eq_false_iff] at h1 ⊢
    tauto
  have hproto : (decide ¬(rec.protocol = "http:") &&
      decide ¬(rec.protocol = "https:")) = false := by
    unfold isPrivateUrlRec at h1
    simp only [Bool.or_eq_false_iff] at h1
    exact h1.2
  unfold specBlockedUrl
  rw [hp]
  simp only [hhost, hdns, Bool.or_false, Bool.false_or]
  exact hproto

/-- Every URL that `safeFetchGo` passes to `fetch` was either already in the
accumulator or passed both validation checks first. -/
theorem safeFetchGo_trace (w : FetchWorld) :
    ∀ (fuel : Nat) (url : String) (trace : List String) (u : String),
      u ∈ (safeFetchGo w fuel url trace).2 →
      u ∈ trace ∨ ∃ rec, w.parse u = some rec ∧ isPrivateUrlRec rec = false ∧
        resolvesToPrivateIP rec.hostname (w.dns rec.hostname) = false := by
  intro fuel
  induction fuel with
  | zero => intro url trace u h; exact Or.inl h
  | succ n ih =>
    intro url trace u h
    simp only [safeFetchGo] at h
    cases hp : w.parse url with
    | none =>
      rw [hp] at h
      exact Or.inl h
    | some rec =>
      rw [hp] at h
      simp only [] at h
      by_cases h1 : isPrivateUrlRec rec = true
      · rw [if_pos h1] at h
        exact Or.inl h
      · rw [if_neg h1] at h
        by_cases h2 : resolvesToPrivateIP rec.hostname (w.dns rec.hostname) = true
        · rw [if_pos h2] at h
          exact Or.inl h
        · rw [if_neg h2] at h
          have hgood : u = url →
              ∃ rec, w.parse u = some rec ∧ isPrivateUrlRec rec = false ∧
                resolvesToPrivateIP rec.hostname (w.dns rec.hostname) = false := by
            intro he
            subst he
            exact ⟨rec, hp, Bool.eq_false_iff.mpr h1, Bool.eq_false_iff.mpr h2⟩
          by_cases h3 : (w.net url).status = 301 ∨ (w.net url).status = 302 ∨
              (w.net url).status = 303 ∨ (w.net url).status = 307 ∨
              (w.net url).status = 308
          · rw [if_pos h3] at h
            cases hloc : (w.net url).location with
            | none =>
              rw [hloc] at h
              simp only [List.mem_append, List.mem_singleton] at h
              rcases h with h | h
              · exact Or.inl h
              · exact Or.inr (hgood h)
            | some loc =>
              rw [hloc] at h
              rcases ih (w.resolveRel loc url) (trace ++ [url]) u h with hmem | hgood2
              · simp only [List.mem_append, List.mem_singleton] at hmem
                rcases hmem with hmem | hmem
                · exact Or.inl hmem
                · exact Or.inr (hgood hmem)
              · exact Or.inr hgood2
          · rw [if_neg h3] at h
            simp only [List.mem_append, List.mem_singleton] at h
            rcases h with h | h
            · exact Or.inl h
            · exact Or.inr (hgood h)

/-- A world with a five-hop chain `a → b → c → d → e(200)` of public hosts,
plus a private `localhost` URL; relative resolution is identity on the
absolute `Location` values used. -/
def chainWorld : FetchWorld :=
  { parse := fun url =>
      if url = "https://a.example.com/" then some ⟨"https:", "a.example.com"⟩
      else if url = "https://b.example.com/" then some ⟨"https:", "b.example.com"⟩
      else if url = "https://c.example.com/" then some ⟨"https:", "c.example.com"⟩
      else if url = "https://d.example.com/" then some ⟨"https:", "d.example.com"⟩
      else if url = "https://e.example.com/" then some ⟨"https:", "e.example.com"⟩
      else if url = "http://localhost/x" then some ⟨"http:", "localhost"⟩
      else none,
    dns := fun _ => .ok "93.184.216.34",
    net := fun url =>
      if url = "https://a.example.com/" then ⟨301, some "https://b.example.com/"⟩
      else if url = "https://b.example.com/" then ⟨302, some "https://c.example.com/"⟩
      else if url = "https://c.example.com/" then ⟨307, some "https://d.example.com/"⟩
      else if url = "https://d.example.com/" then ⟨308, some "https://e.example.com/"⟩
      else ⟨200, none⟩,
    resolveRel := fun loc _ => loc }

/-- A world whose single response is a redirect without a `Location` header. -/
def noLocationWorld : FetchWorld :=
  { chainWorld with net := fun _ => ⟨301, none⟩ }

/-- C1: `safeFetch` never issues a network fetch to a blocked target — every
URL in the fetch trace is outside all blocked categories of the claim
(unparsable, non-http(s) scheme, blocked hostname literal, DNS-private) — and
a blocked input URL fails before any fetch.  With the hop budget of 3, a
chain of 4 redirects fails with the too-many-redirects error after fetching
only the first four URLs, a chain of exactly 3 redirects ending in a 200
succeeds, and a redirect without a `Location` header is an error. -/
theorem safeFetch_ssrf_protection :
    (∀ (w : FetchWorld) (url0 : String) (maxRedirects : Nat) (u : String),
      u ∈ (safeFetch w url0 maxRedirects).2 → specBlockedUrl w u = false) ∧
    (∀ (w : FetchWorld) (url0 : String) (maxRedirects : Nat),
      specBlockedUrl w url0 = true →
      (safeFetch w url0 maxRedirects).2 = [] ∧
      ∃ e, (safeFetch w url0 maxRedirects).1 = Except.error e) ∧
    safeFetch chainWorld "https://b.example.com/" 3 =
      (Except.ok ⟨200, none⟩,
        ["https://b.example.com/", "https://c.example.com/",
         "https://d.example.com/", "https://e.example.com/"]) ∧
    safeFetch chainWorld "https://a.example.com/" 3 =
      (Except.error "Too many redirects",
        ["https://a.example.com/", "https://b.example.com/",
         "https://c.example.com/", "https://d.example.com/"]) ∧
    safeFetch noLocationWorld "https://a.example.com/" 3 =
      (Except.error "Redirect without location header",
        ["https://a.example.com/"]) := by
  refine ⟨fun w url0 maxRedirects u h => ?_, fun w url0 maxRedirects hspec => ?_,
    rfl, rfl, rfl⟩
  · rcases safeFetchGo_trace w (maxRedirects + 1) url0 [] u h with hmem | ⟨rec, hp, h1, h2⟩
    · exact absurd hmem (List.not_mem_nil u)
    · exact specBlockedUrl_eq_false hp h1 h2
  · unfold safeFetch
    show (safeFetchGo w (maxRedirects + 1) url0 []).2 = [] ∧ _
    simp only [safeFetchGo]
    cases hp : w.parse url0 with
    | none => exact ⟨rfl, _, rfl⟩
    | some rec =>
      simp only []
      by_cases h1 : isPrivateUrlRec rec = true
      · rw [if_pos h1]
        exact ⟨rfl, _, rfl⟩
      · rw [if_neg h1]
        by_cases h2 : resolvesToPrivateIP rec.hostname (w.dns rec.hostname) = true
        · rw [if_pos h2]
          exact ⟨rfl, _, rfl⟩
        · exact absurd (specBlockedUrl_eq_false hp (Bool.eq_false_iff.mpr h1)
            (Bool.eq_false_iff.mpr h2)) (by rw [hspec]; exact fun h => Bool.noConfusion h)

/-- Witness for `safeFetch_ssrf_protection`: a fetched chain URL is in no
blocked category, and the `localhost` URL fails with an empty fetch trace. -/
theorem safeFetch_ssrf_protection_witness :
    specBlockedUrl chainWorld "https://b.example.com/" = false ∧
    (safeFetch chainWorld "http://localhost/x" 3).2 = [] := by
  refine ⟨safeFetch_ssrf_protection.1 chainWorld "https://b.example.com/" 3
    "https://b.example.com/" (by decide), ?_⟩
  exact (safeFetch_ssrf_protection.2.1 chainWorld "http://localhost/x" 3 (by decide)).1

end GuestBot
